import Mathlib

/-!
Verification development for the StarRupture factory-definition loader.

This file is a shallow embedding of the structured loader and multi-phase
cross-reference validator found in `src/factory/sr_factory_data_loader.py`,
together with the data classes it imports from `src/factory/factories_data.py`.
All definitions are translated from that source; theorems about the claims of
the specification follow the definitions.

Modelling conventions:

* JSON documents are values of the inductive type `PyJson`.  A JSON object is
  a list of key/value pairs in document order; before the duplicate-key guard
  runs, an object may contain the same key twice, exactly as the ordered-pairs
  callback of `json.load` sees it.
* Fallible Python code is modelled in the `Except LoadError` monad.
  `LoadError.factoriesJsonError` models a raised `FactoriesJsonError`
  (the embedding records the core message; the Python class also appends a
  rendered JSON path to the message, which no claim consults).
  `LoadError.attributeError` models a raised Python `AttributeError`: the
  loader in `sr_factory_data_loader.py` reads several attributes that do not
  exist on the dataclasses declared in `factories_data.py` (for example
  `machine.item` while the dataclass field is `item_name`), and in Python such
  a read raises `AttributeError` at the moment of access.
* `dict.get(key)` returns `None` both for a missing key and for a key whose
  JSON value is `null` (Python deserializes `null` to `None`); `pyGet`
  collapses the two cases accordingly.
* The mutable `JsonPath` / `JsonPathNode` chain is used by the loader in a
  strictly disciplined way (`set_next` replaces the tail below a node, and
  every captured `get_path_array()` call happens when the chain below the
  current node holds exactly the segments appended by the running function),
  so inside the loader a path handle is modelled as the list of segments from
  the root to the handle.  Two quirks of the source are preserved: a
  `FactoryStorage` captures its path with the trailing `"inputs"` segment and
  a `FactoryOutput` with the trailing `"sources"` segment still attached,
  because those functions truncate the child node instead of their own node.
  The weak-reference behaviour of `JsonPathNode` itself (claim C9) is
  modelled separately by `PathChain` / `JsonPathNodeH` below.
* The back-references `Factory.site` and `FactoryMachine.factory` /
  `FactoryStorage.factory` / `FactoryOutput.factory` are cyclic in Python.
  The only observation the loader makes of `Factory.site` is
  `factory.site.site_id`, so `Factory` carries that string as
  `site_site_id`; the machine/storage/output back-references are only used by
  validation passes that receive the owning factory from the surrounding
  iteration, so they are passed explicitly there.
-/

/-- Bind of a successful `Except` computation reduces to the continuation. -/
@[simp] theorem except_bind_ok {α β ε : Type} (a : α) (f : α → Except ε β) :
    (Except.ok a >>= f) = f a := rfl

/-- Bind of a failed `Except` computation propagates the error. -/
@[simp] theorem except_bind_error {α β ε : Type} (e : ε) (f : α → Except ε β) :
    ((Except.error e : Except ε α) >>= f) = .error e := rfl

/-- Map over a successful `Except` computation. -/
@[simp] theorem except_map_ok {α β ε : Type} (f : α → β) (a : α) :
    (f <$> (Except.ok a : Except ε α)) = .ok (f a) := rfl

/-- Map over a failed `Except` computation. -/
@[simp] theorem except_map_error {α β ε : Type} (f : α → β) (e : ε) :
    (f <$> (Except.error e : Except ε α)) = (.error e : Except ε β) := rfl

/-- `pure` in the `Except` monad is `Except.ok`. -/
@[simp] theorem except_pure_eq {α ε : Type} (a : α) :
    (pure a : Except ε α) = .ok a := rfl

/-- Characters removed by Python `str.strip()` with no argument
(ASCII whitespace as relevant to this data). -/
def is_space_char (c : Char) : Bool :=
  c == ' ' || c == '\t' || c == '\n' || c == '\r' || c == '\x0b' || c == '\x0c'

/-- Python `s.strip()`: drop leading and trailing whitespace. -/
def py_strip (s : String) : String :=
  String.mk (((s.data.dropWhile is_space_char).reverse.dropWhile is_space_char).reverse)

/-- `missing_string` from `sr_factory_data_loader.py` lines 38-39:
`s is None or len(s.strip()) < 1`. -/
def missing_string (s : Option String) : Bool :=
  match s with
  | none => true
  | some s => (py_strip s).length < 1

/-- A Python value produced by `json.load`: string, int, bool, null, array, or
object.  An object is the ordered list of key/value pairs of the JSON text;
keys may repeat until the duplicate-key guard has rejected them. -/
inductive PyJson where
  | str (s : String)
  | int (n : Int)
  | bool (b : Bool)
  | null
  | list (xs : List PyJson)
  | obj (pairs : List (String × PyJson))

/-- First-match association-list lookup (Python dict lookup; after the
duplicate-key guard every object has unique keys, so first match is the
unique match). -/
def assoc_lookup {α : Type} (pairs : List (String × α)) (k : String) : Option α :=
  match pairs with
  | [] => none
  | (k2, v) :: rest => if k2 == k then some v else assoc_lookup rest k

/-- Python `d.get(k)` on a deserialized JSON object: `None` both when the key
is absent and when the stored value is JSON `null` (which deserializes to
`None`). -/
def pyGet (pairs : List (String × PyJson)) (k : String) : Option PyJson :=
  match assoc_lookup pairs k with
  | some PyJson.null => none
  | some v => some v
  | none => none

/-- Raised Python errors modelled by the embedding.
`factoriesJsonError` carries the message of a raised `FactoriesJsonError`;
`attributeError` carries the attribute name of a raised `AttributeError`. -/
inductive LoadError where
  | factoriesJsonError (message : String)
  | attributeError (attr : String)
deriving Repr, DecidableEq

/-- Python `value.get(key)`: succeeds only when `value` is a dict; on any
non-dict value (including `None` from a JSON `null`) Python raises
`AttributeError` (no attribute `get`). -/
def dict_get (v : PyJson) (k : String) : Except LoadError (Option PyJson) :=
  match v with
  | .obj pairs => pure (pyGet pairs k)
  | _ => .error (.attributeError "get")

/-- Python `value.items()`: succeeds only when `value` is a dict (iteration is
in insertion order, which for a deserialized object is document order). -/
def dict_items (v : PyJson) : Except LoadError (List (String × PyJson)) :=
  match v with
  | .obj pairs => pure pairs
  | _ => .error (.attributeError "items")

/-- The keys of `ks` in order of first occurrence (the iteration order of
`collections.Counter(ks).items()`). -/
def first_occurrence_keys : List String → List String → List String
  | [], _ => []
  | k :: rest, seen =>
    if seen.contains k then first_occurrence_keys rest seen
    else k :: first_occurrence_keys rest (k :: seen)

/-- The duplicated keys of one JSON object, in first-occurrence order: the
list comprehension over `Counter(...).items()` in `FailOnDuplicateDict`
(`sr_factory_data_loader.py` line 977). -/
def duplicate_keys (ks : List String) : List String :=
  (first_occurrence_keys ks []).filter (fun k => 1 < ks.count k)

/-- Python `repr` of a list of strings, as interpolated into the duplicate-key
message by the f-string of `FailOnDuplicateDict`. -/
def py_repr_str_list (ds : List String) : String :=
  "[" ++ String.intercalate ", " (ds.map (fun d => "\x27" ++ d ++ "\x27")) ++ "]"

/-- The message of the `FactoriesJsonError` raised by `FailOnDuplicateDict`
(`sr_factory_data_loader.py` lines 979-980). -/
def duplicate_keys_message (ds : List String) : String :=
  "Duplicate keys are not allowed in a JSON message. Duplicates: " ++ py_repr_str_list ds

/-- `FailOnDuplicateDict.__init__` (`sr_factory_data_loader.py` lines
976-981): check the ordered pairs of one JSON object for repeated keys and
raise listing every duplicated key name of that object. -/
def fail_on_duplicate_check (pairs : List (String × PyJson)) : Except LoadError Unit :=
  let ds := duplicate_keys (pairs.map Prod.fst)
  if ds.isEmpty then pure ()
  else .error (.factoriesJsonError (duplicate_keys_message ds))

mutual

/-- The duplicate-key pass `json.load` performs when `object_pairs_hook` is
`FailOnDuplicateDict`: every JSON object is materialized bottom-up (inner
objects before their container, siblings in document order) and checked by
`fail_on_duplicate_check`.  The value tree itself is unchanged on success, so
the check is modelled as a validator over the document. -/
def json_load_check : PyJson → Except LoadError Unit
  | .obj pairs => do
    json_load_check_pairs pairs
    fail_on_duplicate_check pairs
  | .list xs => json_load_check_list xs
  | _ => pure ()

/-- Duplicate-key pass over the elements of a JSON array, in order. -/
def json_load_check_list : List PyJson → Except LoadError Unit
  | [] => pure ()
  | x :: xs => do
    json_load_check x
    json_load_check_list xs

/-- Duplicate-key pass over the values of a JSON object, in order. -/
def json_load_check_pairs : List (String × PyJson) → Except LoadError Unit
  | [] => pure ()
  | (_, v) :: rest => do
    json_load_check v
    json_load_check_pairs rest

end

mutual

/-- Whether some JSON object of the document repeats a key within that single
object (repeats across different nesting levels do not count). -/
def has_dup_key_object : PyJson → Bool
  | .obj pairs =>
    !(duplicate_keys (pairs.map Prod.fst)).isEmpty || has_dup_key_object_pairs pairs
  | .list xs => has_dup_key_object_list xs
  | _ => false

/-- `has_dup_key_object` over the elements of a JSON array. -/
def has_dup_key_object_list : List PyJson → Bool
  | [] => false
  | x :: xs => has_dup_key_object x || has_dup_key_object_list xs

/-- `has_dup_key_object` over the values of a JSON object. -/
def has_dup_key_object_pairs : List (String × PyJson) → Bool
  | [] => false
  | (_, v) :: rest => has_dup_key_object v || has_dup_key_object_pairs rest

end

/-- `SubJson a b`: the value `a` occurs somewhere inside the document `b`
(at any nesting depth, including `b` itself). -/
inductive SubJson : PyJson → PyJson → Prop
  | refl (j : PyJson) : SubJson j j
  | inList (j x : PyJson) (xs : List PyJson) :
      SubJson j x → x ∈ xs → SubJson j (.list xs)
  | inObj (j v : PyJson) (k : String) (pairs : List (String × PyJson)) :
      SubJson j v → (k, v) ∈ pairs → SubJson j (.obj pairs)

/-- `FactoryMachineInput` dataclass from `factories_data.py` lines 58-76.
The loader stores the already-validated source id lists (each `None` or a
non-empty list of populated strings). -/
structure FactoryMachineInput where
  from_machine_ids : Option (List String)
  from_factory_input_ids : Option (List String)
  from_storage_ids : Option (List String)
  rate_limit_ipm : Int
  json_path : List String

/-- `FactoryMachine` dataclass from `factories_data.py` lines 80-116.
The Python field `variant` is annotated `str | None` but the loader stores
the raw JSON value of the `variant` key without a type check, so the model
stores the `PyJson` value.  The `factory` back-reference is supplied by the
surrounding iteration wherever the source reads it. -/
structure FactoryMachine where
  machine_id : String
  item_name : String
  variant : Option PyJson
  inputs : Option (List FactoryMachineInput)
  json_path : List String

/-- `FactoryStorage` dataclass from `factories_data.py` lines 120-141. -/
structure FactoryStorage where
  storage_id : String
  item_names : List String
  num_stacks : Int
  inputs : List FactoryMachineInput
  json_path : List String

/-- `make_factory_output_key` (`factories_data.py` lines 145-158 and the
identical copy in `sr_factory_data_loader.py` lines 365-378): concatenate the
three ids with `";"`. -/
def make_factory_output_key (site_id factory_id factory_output_id : String) : String :=
  site_id ++ ";" ++ factory_id ++ ";" ++ factory_output_id

/-- `FactoryInput` dataclass from `factories_data.py` lines 162-175. -/
structure FactoryInput where
  factory_input_id : String
  site_id : String
  factory_id : String
  factory_output_id : String
  json_path : List String

/-- `FactoryInput.get_output_key` from `factories_data.py` lines 174-175. -/
def FactoryInput.get_output_key (i : FactoryInput) : String :=
  make_factory_output_key i.site_id i.factory_id i.factory_output_id

/-- `FactoryOutputSource` dataclass from `factories_data.py` lines 179-188. -/
structure FactoryOutputSource where
  from_machine_ids : Option (List String)
  from_storage_ids : Option (List String)
  rate_limit_ipm : Int
  json_path : List String

/-- `FactoryOutput` dataclass from `factories_data.py` lines 192-207. -/
structure FactoryOutput where
  dispatched_item_name : String
  factory_output_id : String
  rate_limit_ipm : Int
  sources : List FactoryOutputSource
  json_path : List String

/-- `Factory` class from `factories_data.py` lines 211-239.  The Python
object holds a back-reference `site : Site`; the loader observes only
`factory.site.site_id`, carried here as `site_site_id`. -/
structure Factory where
  site_site_id : String
  factory_id : String
  purpose : String
  json_path : List String
  factory_machines : List FactoryMachine
  factory_inputs : List FactoryInput
  factory_outputs : List FactoryOutput
  factory_storage : List FactoryStorage

/-- `Factory.add_machine` (`factories_data.py` lines 229-230): a plain list
append with no duplicate-id check. -/
def Factory.add_machine (f : Factory) (machine : FactoryMachine) : Factory :=
  { f with factory_machines := f.factory_machines ++ [machine] }

/-- `Factory.add_input` (`factories_data.py` lines 232-233): a plain list
append with no duplicate-id check. -/
def Factory.add_input (f : Factory) (factory_input : FactoryInput) : Factory :=
  { f with factory_inputs := f.factory_inputs ++ [factory_input] }

/-- `Factory.add_output` (`factories_data.py` lines 235-236): a plain list
append with no duplicate-id check. -/
def Factory.add_output (f : Factory) (factory_output : FactoryOutput) : Factory :=
  { f with factory_outputs := f.factory_outputs ++ [factory_output] }

/-- `Factory.add_storage` (`factories_data.py` lines 238-239): a plain list
append with no duplicate-id check. -/
def Factory.add_storage (f : Factory) (storage : FactoryStorage) : Factory :=
  { f with factory_storage := f.factory_storage ++ [storage] }

/-- `Site` dataclass from `factories_data.py` lines 243-256. -/
structure Site where
  site_id : String
  teleporter : String
  heat_limit : Int
  heat_current : Int
  json_path : List String
  factories : List Factory

/-- `Site.add_factory` (`factories_data.py` lines 255-256). -/
def Site.add_factory (s : Site) (factory : Factory) : Site :=
  { s with factories := s.factories ++ [factory] }

/-- `FactoryDefinitions` (`sr_factory_data_loader.py` lines 598-607): the
loaded sites plus the output index keyed by
`site_id;factory_id;factory_output_id` (an insertion-ordered dict, modelled
as an association list). -/
structure FactoryDefinitions where
  sites : List Site
  all_factory_outputs : List (String × FactoryOutput)

/-- Python read of `machine.item` (`sr_factory_data_loader.py` lines 721, 729
and 915): the `FactoryMachine` dataclass declares the field `item_name`, so
the access raises `AttributeError`. -/
def FactoryMachine.attr_item (_machine : FactoryMachine) : Except LoadError String :=
  .error (.attributeError "item")

/-- Python read of `output.dispatched_item` (`sr_factory_data_loader.py`
line 921): the `FactoryOutput` dataclass declares the field
`dispatched_item_name`, so the access raises `AttributeError`. -/
def FactoryOutput.attr_dispatched_item (_output : FactoryOutput) : Except LoadError String :=
  .error (.attributeError "dispatched_item")

/-- Python read of `storage.items` (`sr_factory_data_loader.py` line 927):
the `FactoryStorage` dataclass declares the field `item_names`, so the access
raises `AttributeError`. -/
def FactoryStorage.attr_items (_storage : FactoryStorage) : Except LoadError (List String) :=
  .error (.attributeError "items")

/-- Python read of `fmi.from_storage_id` (`sr_factory_data_loader.py`
line 348): the `FactoryMachineInput` dataclass declares the field
`from_storage_ids`, so the access raises `AttributeError`. -/
def FactoryMachineInput.attr_from_storage_id (_i : FactoryMachineInput) :
    Except LoadError (Option (List String)) :=
  .error (.attributeError "from_storage_id")

/-- The union parameter type of `validate_machine_inputs` and
`inputs_validator` (`FactoryMachineInput | FactoryOutputSource`). -/
inductive MachineInputOrOutputSource where
  | machine_input (i : FactoryMachineInput)
  | output_source (s : FactoryOutputSource)

/-- Python read of `input.from_machine_id` (`sr_factory_data_loader.py`
lines 756 and 852): both `FactoryMachineInput` and `FactoryOutputSource`
declare the field `from_machine_ids`, so the access raises `AttributeError`
for either variant. -/
def MachineInputOrOutputSource.attr_from_machine_id (_input : MachineInputOrOutputSource) :
    Except LoadError (Option (List String)) :=
  .error (.attributeError "from_machine_id")

/-- Map a fallible step over a list, stopping at the first error (the
behaviour of a Python list comprehension whose element expression can
raise). -/
def mapE {α β : Type} (f : α → Except LoadError β) : List α → Except LoadError (List β)
  | [] => pure []
  | x :: xs => do
    let y ← f x
    let ys ← mapE f xs
    pure (y :: ys)

/-- Run a fallible action on every element of a list, in order, stopping at
the first error (a Python `for` loop whose body can raise). -/
def forE {α : Type} (f : α → Except LoadError Unit) : List α → Except LoadError Unit
  | [] => pure ()
  | x :: xs => do
    f x
    forE f xs

/-- Every element is a string that is non-empty after stripping: the
`reduce(lambda x,y: x and type(y) is str and 0 < len(y.strip()), value, True)`
test of `validate_source_list`. -/
def all_populated_strings : List PyJson → Bool
  | [] => true
  | .str s :: rest => (0 < (py_strip s).length) && all_populated_strings rest
  | _ :: _ => false

/-- Extract the string payloads of a list of JSON strings (used only after
`all_populated_strings` has verified every element is a string). -/
def py_string_values : List PyJson → List String
  | [] => []
  | .str s :: rest => s :: py_string_values rest
  | _ :: rest => py_string_values rest

/-- `validate_source_list` (`sr_factory_data_loader.py` lines 222-242):
an absent source list is allowed; a present one must be a non-empty list of
populated strings.  The model additionally returns the extracted string list
so the caller can store it in the typed structure. -/
def validate_source_list (description source : String) (value : Option PyJson) :
    Except LoadError (Option (List String)) :=
  match value with
  | none => pure none
  | some (.list xs) =>
    if xs.length < 1 || !(all_populated_strings xs) then
      .error (.factoriesJsonError ("When \x27" ++ source ++ "\x27 is specified by a "
        ++ description ++ ", it must be a list of strings."))
    else pure (some (py_string_values xs))
  | some _ =>
    .error (.factoriesJsonError ("When \x27" ++ source ++ "\x27 is specified by a "
      ++ description ++ ", it must be a list of strings."))

/-- Message of the `rate_limit_ipm` check in `new_factory_machine_input`. -/
def machine_input_rate_msg : String :=
  "A factory machine input must specify the \x27rate_limit_ipm\x27 with an integer value"
    ++ " of at least 1."

/-- `new_factory_machine_input` (`sr_factory_data_loader.py` lines 247-273). -/
def new_factory_machine_input (path_node : List String) (input_spec : PyJson) :
    Except LoadError FactoryMachineInput := do
  let from_machine_id ← dict_get input_spec "from_machine_id"
  let from_factory_input_id ← dict_get input_spec "from_factory_input_id"
  let from_storage_id ← dict_get input_spec "from_storage_id"
  let rate_limit_ipm ← dict_get input_spec "rate_limit_ipm"
  if from_machine_id.isNone && from_factory_input_id.isNone && from_storage_id.isNone then
    .error (.factoriesJsonError ("A factory machine input must specify at least one of"
      ++ " \x27from_machine_id\x27, \x27from_factory_input_id\x27, \x27from_storage_id\x27."))
  else
    match rate_limit_ipm with
    | some (.int n) =>
      if n < 1 then .error (.factoriesJsonError machine_input_rate_msg)
      else do
        let fm ← validate_source_list "factory machine input" "from_machine_id" from_machine_id
        let ff ← validate_source_list "factory machine input" "from_factory_input_id"
          from_factory_input_id
        let fs ← validate_source_list "factory machine input" "from_storage_id" from_storage_id
        pure (FactoryMachineInput.mk fm ff fs n path_node)
    | _ => .error (.factoriesJsonError machine_input_rate_msg)

/-- Message of the `item` check in `new_factory_machine`. -/
def machine_item_msg : String :=
  "A factory machine must define an \x27item\x27 with a non-empty string value."

/-- Message of the `inputs` shape check in `new_factory_machine`
(the wording `is must` is in the source). -/
def machine_inputs_msg : String :=
  "When \x27inputs\x27 is specified for a factory machine, is must be a non-empty list."

/-- `new_factory_machine` (`sr_factory_data_loader.py` lines 277-314).
A machine with a `variant` and no `inputs` is a raw extractor; one with
`inputs` and no `variant` is a crafter; both present or neither present is a
structural error raised before any validation pass runs. -/
def new_factory_machine (path_node : List String) (machine_id : String)
    (machine_spec : PyJson) : Except LoadError FactoryMachine := do
  let item ← dict_get machine_spec "item"
  let variant ← dict_get machine_spec "variant"
  let inputs ← dict_get machine_spec "inputs"
  match item with
  | some (.str it) =>
    if missing_string (some it) then .error (.factoriesJsonError machine_item_msg)
    else if variant.isSome && inputs.isSome then
      .error (.factoriesJsonError ("A factory machine may only define either \x27variant\x27"
        ++ " or \x27inputs\x27 but not both."))
    else if variant.isNone && inputs.isNone then
      .error (.factoriesJsonError ("A factory machine must define at least one of"
        ++ " \x27variant\x27 or \x27inputs\x27."))
    else
      match variant with
      | some vv => pure (FactoryMachine.mk machine_id it (some vv) none path_node)
      | none =>
        match inputs with
        | some (.list xs) =>
          if xs.length < 1 then .error (.factoriesJsonError machine_inputs_msg)
          else do
            let built ← mapE (new_factory_machine_input (path_node ++ ["inputs"])) xs
            pure (FactoryMachine.mk machine_id it none (some built) path_node)
        | _ => .error (.factoriesJsonError machine_inputs_msg)
  | _ => .error (.factoriesJsonError machine_item_msg)

/-- Message of the `items` shape check in `new_factory_storage`. -/
def storage_items_msg : String :=
  "A factory storage must define \x27items\x27 as a non-empty list."

/-- Message of the `num_stacks` check in `new_factory_storage`. -/
def storage_num_stacks_msg : String :=
  "A factory storage must specify the \x27num_stacks\x27 with an integer value of at least 1."

/-- Message of the `inputs` shape check in `new_factory_storage`. -/
def storage_inputs_msg : String :=
  "A factory storage must define \x27inputs\x27 as a non-empty list."

/-- `new_factory_storage` (`sr_factory_data_loader.py` lines 318-361).
After building the input list the source iterates it to reject a storage that
names itself in `from_storage_id`; that loop reads `fmi.from_storage_id`,
an attribute the `FactoryMachineInput` dataclass does not declare (its field
is `from_storage_ids`), so the first iteration raises `AttributeError` and
the membership test — and the `FactoryStorage` construction after it — are
unreachable whenever the (mandatorily non-empty) input list has an element.
No check in this function restricts a storage input to
`from_machine_id`/`from_storage_id`: the `from_factory_input_id` key is
accepted by `new_factory_machine_input` above. -/
def new_factory_storage (path_node : List String) (storage_id : String)
    (storage_spec : PyJson) : Except LoadError FactoryStorage := do
  let items ← dict_get storage_spec "items"
  let num_stacks ← dict_get storage_spec "num_stacks"
  let inputs ← dict_get storage_spec "inputs"
  match items with
  | some (.list its) =>
    if its.length < 1 then .error (.factoriesJsonError storage_items_msg)
    else if !(all_populated_strings its) then
      .error (.factoriesJsonError
        "A factory storage must define \x27items\x27 as a list of non-empty strings.")
    else
      match num_stacks with
      | some (.int n) =>
        if n < 1 then .error (.factoriesJsonError storage_num_stacks_msg)
        else
          match inputs with
          | some (.list ins) =>
            if ins.length < 1 then .error (.factoriesJsonError storage_inputs_msg)
            else do
              let fmis ← mapE (new_factory_machine_input (path_node ++ ["inputs"])) ins
              match fmis with
              | [] =>
                -- Unreachable through the loader: `ins` was checked non-empty.
                pure (FactoryStorage.mk storage_id (py_string_values its) n []
                  (path_node ++ ["inputs"]))
              | fmi :: _ =>
                -- `if fmi.from_storage_id is not None and storage_id in fmi.from_storage_id:`
                -- raises before the condition can be evaluated.
                do
                  let _ ← fmi.attr_from_storage_id
                  pure (FactoryStorage.mk storage_id (py_string_values its) n []
                    (path_node ++ ["inputs"]))
          | _ => .error (.factoriesJsonError storage_inputs_msg)
      | _ => .error (.factoriesJsonError storage_num_stacks_msg)
  | _ => .error (.factoriesJsonError storage_items_msg)

/-- Message of the `site_id` check in `new_factory_input`. -/
def input_site_msg : String :=
  "A factory input must define a \x27site_id\x27 with a non-empty string value."

/-- Message of the `factory_id` check in `new_factory_input`. -/
def input_factory_msg : String :=
  "A factory input must define a \x27factory_id\x27 with a non-empty string value."

/-- Message of the `factory_output_id` check in `new_factory_input`. -/
def input_output_msg : String :=
  "A factory input must define a \x27factory_output_id\x27 with a non-empty string value."

/-- `new_factory_input` (`sr_factory_data_loader.py` lines 382-398). -/
def new_factory_input (path_node : List String) (factory_input_id : String)
    (input_spec : PyJson) : Except LoadError FactoryInput := do
  let site_id ← dict_get input_spec "site_id"
  let factory_id ← dict_get input_spec "factory_id"
  let factory_output_id ← dict_get input_spec "factory_output_id"
  match site_id with
  | some (.str s) =>
    if missing_string (some s) then .error (.factoriesJsonError input_site_msg)
    else
      match factory_id with
      | some (.str f) =>
        if missing_string (some f) then .error (.factoriesJsonError input_factory_msg)
        else
          match factory_output_id with
          | some (.str o) =>
            if missing_string (some o) then .error (.factoriesJsonError input_output_msg)
            else pure (FactoryInput.mk factory_input_id s f o path_node)
          | _ => .error (.factoriesJsonError input_output_msg)
      | _ => .error (.factoriesJsonError input_factory_msg)
  | _ => .error (.factoriesJsonError input_site_msg)

/-- Message of the `rate_limit_ipm` check in `new_factory_output_source`. -/
def output_source_rate_msg : String :=
  "A factory output source must define \x27rate_limit_ipm\x27 with an integer value of at"
    ++ " least 1."

/-- `new_factory_output_source` (`sr_factory_data_loader.py` lines 402-422). -/
def new_factory_output_source (path_node : List String) (source_spec : PyJson) :
    Except LoadError FactoryOutputSource := do
  let from_machine_id ← dict_get source_spec "from_machine_id"
  let from_storage_id ← dict_get source_spec "from_storage_id"
  let rate_limit_ipm ← dict_get source_spec "rate_limit_ipm"
  if from_machine_id.isNone && from_storage_id.isNone then
    .error (.factoriesJsonError ("A factory output source must specify at least one of"
      ++ " \x27from_machine_id\x27, \x27from_storage_id\x27."))
  else
    match rate_limit_ipm with
    | some (.int n) =>
      if n < 1 then .error (.factoriesJsonError output_source_rate_msg)
      else do
        let fm ← validate_source_list "factory output source" "from_machine_id" from_machine_id
        let fs ← validate_source_list "factory output source" "from_storage_id" from_storage_id
        pure (FactoryOutputSource.mk fm fs n path_node)
    | _ => .error (.factoriesJsonError output_source_rate_msg)

/-- Message of the `dispatched_item` check in `new_factory_output`. -/
def output_item_msg : String :=
  "A factory output must define a \x27dispatched_item\x27 with a non-empty string value."

/-- Message of the `rate_limit_ipm` check in `new_factory_output`. -/
def output_rate_msg : String :=
  "A factory output must define a \x27rate_limit_ipm\x27 with an integer value of at least 1."

/-- Message of the `sources` shape check in `new_factory_output`. -/
def output_sources_msg : String :=
  "A factory output must define \x27sources\x27 as a non-empty list."

/-- `new_factory_output` (`sr_factory_data_loader.py` lines 426-457).
The function truncates the `"sources"` child node rather than its own node,
so the captured `json_path` of the output retains the trailing `"sources"`
segment. -/
def new_factory_output (path_node : List String) (factory_output_id : String)
    (output_spec : PyJson) : Except LoadError FactoryOutput := do
  let dispatched_item ← dict_get output_spec "dispatched_item"
  let rate_limit_ipm ← dict_get output_spec "rate_limit_ipm"
  let sources ← dict_get output_spec "sources"
  match dispatched_item with
  | some (.str di) =>
    if missing_string (some di) then .error (.factoriesJsonError output_item_msg)
    else
      match rate_limit_ipm with
      | some (.int n) =>
        if n < 1 then .error (.factoriesJsonError output_rate_msg)
        else
          match sources with
          | some (.list ss) =>
            if ss.length < 1 then .error (.factoriesJsonError output_sources_msg)
            else do
              let built ← mapE (new_factory_output_source (path_node ++ ["sources"])) ss
              pure (FactoryOutput.mk di factory_output_id n built (path_node ++ ["sources"]))
          | _ => .error (.factoriesJsonError output_sources_msg)
      | _ => .error (.factoriesJsonError output_rate_msg)
  | _ => .error (.factoriesJsonError output_item_msg)

/-- Message of the `purpose` check in `new_factory`. -/
def purpose_msg : String :=
  "JSON mandatory entry is either missing, or value isn\x27t a populated string,"
    ++ " for value of entry \x27purpose\x27."

/-- Message of the `machines` shape check in `new_factory`. -/
def machines_dict_msg : String :=
  "JSON mandatory entry is either missing, or value isn\x27t a valid dict,"
    ++ " for value of entry \x27machines\x27."

/-- Message of the self-referential factory-input check in `new_factory`
(`sr_factory_data_loader.py` lines 509-514); the message text, including
its misspelling, is copied from the source. -/
def self_input_msg (factory_input_id : String) : String :=
  "Factory input \x27" ++ factory_input_id ++ "\x27 specifies a connection to"
    ++ " an output within it\x27s own factory. Only links to other factories are allowed."

/-- The machines loop of `new_factory` (`sr_factory_data_loader.py` lines
484-490): every entry of the `machines` dict is validated, constructed and
appended in document order. -/
def load_machines (machines_path : List String) (factory : Factory) :
    List (String × PyJson) → Except LoadError Factory
  | [] => pure factory
  | (k, v) :: rest => do
    if missing_string (some k) then
      .error (.factoriesJsonError ("JSON mandatory machine ID entry \"" ++ k ++ "\" invalid."))
    else do
      let machine ← new_factory_machine (machines_path ++ [k]) k v
      load_machines machines_path (factory.add_machine machine) rest

/-- The factory-inputs loop of `new_factory` (`sr_factory_data_loader.py`
lines 503-516), including the rejection of an input whose `site_id` and
`factory_id` both equal the ids of the declaring factory. -/
def load_factory_inputs (inputs_path : List String) (factory : Factory) :
    List (String × PyJson) → Except LoadError Factory
  | [] => pure factory
  | (k, v) :: rest => do
    if missing_string (some k) then
      .error (.factoriesJsonError
        ("JSON mandatory factory input ID entry \"" ++ k ++ "\" invalid."))
    else do
      let factory_input ← new_factory_input (inputs_path ++ [k]) k v
      if factory.factory_id == factory_input.factory_id
          && factory.site_site_id == factory_input.site_id then
        .error (.factoriesJsonError (self_input_msg factory_input.factory_input_id))
      else
        load_factory_inputs inputs_path (factory.add_input factory_input) rest

/-- The factory-outputs loop of `new_factory` (`sr_factory_data_loader.py`
lines 526-533). -/
def load_factory_outputs (outputs_path : List String) (factory : Factory) :
    List (String × PyJson) → Except LoadError Factory
  | [] => pure factory
  | (k, v) :: rest => do
    if missing_string (some k) then
      .error (.factoriesJsonError
        ("JSON mandatory factory output ID entry \"" ++ k ++ "\" invalid."))
    else do
      let factory_output ← new_factory_output (outputs_path ++ [k]) k v
      load_factory_outputs outputs_path (factory.add_output factory_output) rest

/-- The factory-storage loop of `new_factory` (`sr_factory_data_loader.py`
lines 543-550). -/
def load_factory_storage (storage_path : List String) (factory : Factory) :
    List (String × PyJson) → Except LoadError Factory
  | [] => pure factory
  | (k, v) :: rest => do
    if missing_string (some k) then
      .error (.factoriesJsonError
        ("JSON mandatory factory storage ID entry \"" ++ k ++ "\" invalid."))
    else do
      let fs ← new_factory_storage (storage_path ++ [k]) k v
      load_factory_storage storage_path (factory.add_storage fs) rest

/-- The optional `inputs` section of `new_factory`
(`sr_factory_data_loader.py` lines 495-516): a missing (or JSON `null`) key
means zero entries, a present non-dict value is an error, and a present dict
is processed entry by entry. -/
def factory_inputs_stage (path_node : List String) (factory_values : PyJson)
    (factory : Factory) : Except LoadError Factory := do
  let factory_inputs ← dict_get factory_values "inputs"
  match factory_inputs with
  | none => pure factory
  | some (.obj ipairs) => load_factory_inputs (path_node ++ ["inputs"]) factory ipairs
  | some _ => .error (.factoriesJsonError
      ("JSON optional entry value isn\x27t a valid dict, for value of entry \x27inputs\x27."))

/-- The optional `outputs` section of `new_factory`
(`sr_factory_data_loader.py` lines 518-533). -/
def factory_outputs_stage (path_node : List String) (factory_values : PyJson)
    (factory : Factory) : Except LoadError Factory := do
  let factory_outputs ← dict_get factory_values "outputs"
  match factory_outputs with
  | none => pure factory
  | some (.obj opairs) => load_factory_outputs (path_node ++ ["outputs"]) factory opairs
  | some _ => .error (.factoriesJsonError
      ("JSON optional entry value isn\x27t a valid dict, for value of entry \x27outputs\x27."))

/-- The optional `storage` section of `new_factory`
(`sr_factory_data_loader.py` lines 535-550). -/
def factory_storage_stage (path_node : List String) (factory_values : PyJson)
    (factory : Factory) : Except LoadError Factory := do
  let factory_storage ← dict_get factory_values "storage"
  match factory_storage with
  | none => pure factory
  | some (.obj spairs) => load_factory_storage (path_node ++ ["storage"]) factory spairs
  | some _ => .error (.factoriesJsonError
      ("JSON optional entry value isn\x27t a valid dict, for value of entry \x27storage\x27."))

/-- `new_factory` (`sr_factory_data_loader.py` lines 461-552): validate
`purpose`, then process the mandatory `machines` section and the optional
`inputs`, `outputs` and `storage` sections in that order. -/
def new_factory (path_node : List String) (site_site_id : String) (factory_id : String)
    (factory_values : PyJson) : Except LoadError Factory := do
  let purpose ← dict_get factory_values "purpose"
  match purpose with
  | some (.str p) =>
    if missing_string (some p) then .error (.factoriesJsonError purpose_msg)
    else do
      let factory0 := Factory.mk site_site_id factory_id p path_node [] [] [] []
      let machines ← dict_get factory_values "machines"
      match machines with
      | some (.obj mpairs) => do
        let f1 ← load_machines (path_node ++ ["machines"]) factory0 mpairs
        let f2 ← factory_inputs_stage path_node factory_values f1
        let f3 ← factory_outputs_stage path_node factory_values f2
        let f4 ← factory_storage_stage path_node factory_values f3
        pure f4
      | _ => .error (.factoriesJsonError machines_dict_msg)
  | _ => .error (.factoriesJsonError purpose_msg)

/-- Message of the `teleporter` check in `new_site`. -/
def teleporter_msg : String :=
  "JSON mandatory entry is either missing, or value isn\x27t a populated string,"
    ++ " for value of entry \x27teleporter\x27."

/-- Message of the `heat_limit` check in `new_site`. -/
def heat_limit_msg : String :=
  "JSON mandatory entry is either missing, or value isn\x27t a valid int,"
    ++ " for value of entry \x27heat_limit\x27."

/-- Message of the `heat_current` check in `new_site`. -/
def heat_current_msg : String :=
  "JSON mandatory entry is either missing, or value isn\x27t a valid int,"
    ++ " for value of entry \x27heat_current\x27."

/-- Message of the `factories` shape check in `new_site`. -/
def factories_dict_msg : String :=
  "JSON mandatory entry is either missing, or value isn\x27t a valid dict,"
    ++ " for value of entry \x27factories\x27."

/-- The factories loop of `new_site` (`sr_factory_data_loader.py` lines
588-592). -/
def load_factories (factories_path : List String) (site : Site) :
    List (String × PyJson) → Except LoadError Site
  | [] => pure site
  | (k, v) :: rest => do
    if missing_string (some k) then
      .error (.factoriesJsonError ("JSON mandatory factory ID entry \"" ++ k ++ "\" invalid."))
    else do
      let factory ← new_factory (factories_path ++ [k]) site.site_id k v
      load_factories factories_path (site.add_factory factory) rest

/-- `new_site` (`sr_factory_data_loader.py` lines 556-594).  The teleporter
may be blank (it is stored stripped); `heat_limit` must be an int of at least
1000 and `heat_current` an int of at least 1. -/
def new_site (path_node : List String) (site_id : String) (site_values : PyJson) :
    Except LoadError Site := do
  let teleporter ← dict_get site_values "teleporter"
  let heat_limit ← dict_get site_values "heat_limit"
  let heat_current ← dict_get site_values "heat_current"
  match teleporter with
  | some (.str t) =>
    match heat_limit with
    | some (.int hl) =>
      if hl < 1000 then .error (.factoriesJsonError heat_limit_msg)
      else
        match heat_current with
        | some (.int hc) =>
          if hc < 1 then .error (.factoriesJsonError heat_current_msg)
          else do
            let site0 := Site.mk site_id (py_strip t) hl hc path_node []
            let factories ← dict_get site_values "factories"
            match factories with
            | some (.obj fpairs) => load_factories (path_node ++ ["factories"]) site0 fpairs
            | _ => .error (.factoriesJsonError factories_dict_msg)
        | _ => .error (.factoriesJsonError heat_current_msg)
    | _ => .error (.factoriesJsonError heat_limit_msg)
  | _ => .error (.factoriesJsonError teleporter_msg)

/-- Message of the defense-in-depth duplicate check in
`FactoryDefinitions.__index_factory_outputs`. -/
def output_index_dup_msg (factory_output_id factory_id site_id : String) : String :=
  "Factory output ID \x27" ++ factory_output_id ++ "\x27 is duplicate within factory \x27"
    ++ factory_id ++ "\x27 and site \x27" ++ site_id ++ "\x27."

/-- Inner loop of `FactoryDefinitions.__index_factory_outputs`
(`sr_factory_data_loader.py` lines 641-649): index each output of one factory
under its composite key, raising if the key is already present. -/
def index_output_list (site_id factory_id : String) (acc : List (String × FactoryOutput)) :
    List FactoryOutput → Except LoadError (List (String × FactoryOutput))
  | [] => pure acc
  | o :: rest =>
    let key := make_factory_output_key site_id factory_id o.factory_output_id
    if (assoc_lookup acc key).isSome then
      .error (.factoriesJsonError (output_index_dup_msg o.factory_output_id factory_id site_id))
    else index_output_list site_id factory_id (acc ++ [(key, o)]) rest

/-- Middle loop of `FactoryDefinitions.__index_factory_outputs` over the
factories of one site. -/
def index_factory_list (site_id : String) (acc : List (String × FactoryOutput)) :
    List Factory → Except LoadError (List (String × FactoryOutput))
  | [] => pure acc
  | f :: rest => do
    let acc2 ← index_output_list site_id f.factory_id acc f.factory_outputs
    index_factory_list site_id acc2 rest

/-- `FactoryDefinitions.__index_factory_outputs` (`sr_factory_data_loader.py`
lines 638-649): build the output index over all sites after the tree is fully
constructed. -/
def index_factory_outputs (acc : List (String × FactoryOutput)) :
    List Site → Except LoadError (List (String × FactoryOutput))
  | [] => pure acc
  | s :: rest => do
    let acc2 ← index_factory_list s.site_id acc s.factories
    index_factory_outputs acc2 rest

/-- The sites loop of `FactoryDefinitions.load` (`sr_factory_data_loader.py`
lines 629-633). -/
def load_sites (sites_path : List String) :
    List (String × PyJson) → Except LoadError (List Site)
  | [] => pure []
  | (k, v) :: rest => do
    if missing_string (some k) then
      .error (.factoriesJsonError ("JSON mandatory site ID entry \"" ++ k ++ "\" invalid."))
    else do
      let site ← new_site (sites_path ++ [k]) k v
      let srest ← load_sites sites_path rest
      pure (site :: srest)

/-- `FactoryDefinitions.load` (`sr_factory_data_loader.py` lines 614-635):
extract the `sites` entry, build every site, then build the output index. -/
def FactoryDefinitions_load (factories_dict : PyJson) :
    Except LoadError FactoryDefinitions := do
  let sites_val ← dict_get factories_dict "sites"
  match sites_val with
  | none => .error (.factoriesJsonError "JSON missing root level \x27sites\x27 entry.")
  | some sv => do
    let spairs ← dict_items sv
    let sites ← load_sites ["sites"] spairs
    let idx ← index_factory_outputs [] sites
    pure (FactoryDefinitions.mk sites idx)

/-- `read_factories_json` (`sr_factory_data_loader.py` lines 985-990) applied
to an already-parsed document: run the `FailOnDuplicateDict` duplicate-key
guard over every JSON object, then `FactoryDefinitions.load`.  (Reading the
file from disk is outside the model.) -/
def read_factories_json (doc : PyJson) : Except LoadError FactoryDefinitions := do
  json_load_check doc
  FactoryDefinitions_load doc

/-- `Item` catalogue record as consumed by the loader (only `item_name` is
read). -/
structure Item where
  item_name : String

/-- `RecipeInput` catalogue record as consumed by the loader. -/
structure RecipeInput where
  item_name : String
  input_name : String

/-- `RawItem` catalogue record as consumed by the loader. -/
structure RawItem where
  item_name : String
  variant : String

/-- `GameDataDefinitions` (`sr_factory_data_loader.py` lines 43-79): the
externally loaded catalogue.  Buildings are never consulted by the validator
and are omitted. -/
structure GameDataDefinitions where
  items : List Item
  recipe_inputs : List RecipeInput
  raw_items : List RawItem

/-- The `inputs_per_item` mapping computed by `GameDataDefinitions.update`:
the recipe-input
names declared for an item. -/
def GameDataDefinitions.inputs_per_item (gd : GameDataDefinitions) (item : String) :
    List String :=
  (gd.recipe_inputs.filter (fun r => r.item_name == item)).map (fun r => r.input_name)

/-- `visit_all_machines` (`sr_factory_data_loader.py` lines 653-666). -/
def visit_all_machines (factory_definitions : FactoryDefinitions)
    (machine_visitor : FactoryMachine → Except LoadError Unit) : Except LoadError Unit :=
  forE (fun site =>
    forE (fun factory => forE machine_visitor factory.factory_machines) site.factories)
    factory_definitions.sites

/-- `visit_all_factory_outputs` (`sr_factory_data_loader.py` lines 670-682). -/
def visit_all_factory_outputs (factory_definitions : FactoryDefinitions)
    (factory_output_visitor : FactoryOutput → Except LoadError Unit) :
    Except LoadError Unit :=
  forE (fun site =>
    forE (fun factory => forE factory_output_visitor factory.factory_outputs) site.factories)
    factory_definitions.sites

/-- `visit_all_factory_storage` (`sr_factory_data_loader.py` lines 686-698). -/
def visit_all_factory_storage (factory_definitions : FactoryDefinitions)
    (factory_storage_visitor : FactoryStorage → Except LoadError Unit) :
    Except LoadError Unit :=
  forE (fun site =>
    forE (fun factory => forE factory_storage_visitor factory.factory_storage) site.factories)
    factory_definitions.sites

/-- The per-machine validator of `validate_item_exists`
(`sr_factory_data_loader.py` lines 718-733).  Both branches interpolate
`machine.item` into a string before any catalogue membership test; the
`FactoryMachine` dataclass declares the field `item_name`, so the access
raises `AttributeError` for every visited machine and the membership tests of
lines 722-733 are unreachable (they are therefore not reproduced). -/
def validate_item_exists_validator (_raw_items _items : List String)
    (machine : FactoryMachine) : Except LoadError Unit := do
  if machine.variant.isSome then do
    let _raw_item ← machine.attr_item
    pure ()
  else do
    let _item ← machine.attr_item
    pure ()

/-- `validate_item_exists` — Pass 1 (`sr_factory_data_loader.py` lines
702-735): build the catalogue lookup sets, then visit every machine. -/
def validate_item_exists (factory_definitions : FactoryDefinitions)
    (data_definitions : GameDataDefinitions) : Except LoadError Unit :=
  let raw_items := data_definitions.raw_items.map (fun ri => ri.item_name ++ ";" ++ ri.variant)
  let items := data_definitions.items.map (fun i => i.item_name)
  visit_all_machines factory_definitions (validate_item_exists_validator raw_items items)

/-- `validate_machine_inputs` inside `validate_connections_exist`
(`sr_factory_data_loader.py` lines 751-777).  The first statement evaluates
`input.from_machine_id`; both `FactoryMachineInput` and `FactoryOutputSource`
declare the field `from_machine_ids`, so the access raises `AttributeError`
for every call and the dangling-reference membership checks of lines 756-777
are unreachable (they are therefore not reproduced). -/
def validate_machine_inputs (_machine_ids _input_ids _storage_ids : List String)
    (input : MachineInputOrOutputSource) : Except LoadError Unit := do
  let _from_machine_id ← input.attr_from_machine_id
  pure ()

/-- The per-output step of the first loop of `validate_connections_exist`
(`sr_factory_data_loader.py` lines 800-811): validate each source of the
output, then add the composite key of the output to the set of existing
outputs. -/
def collect_output_keys (site_id factory_id : String)
    (machine_ids input_ids storage_ids : List String) :
    List FactoryOutput → List String → Except LoadError (List String)
  | [], acc => pure acc
  | o :: rest, acc => do
    forE (fun src => validate_machine_inputs machine_ids input_ids storage_ids
      (.output_source src)) o.sources
    collect_output_keys site_id factory_id machine_ids input_ids storage_ids rest
      (acc ++ [make_factory_output_key site_id factory_id o.factory_output_id])

/-- The per-factory step of the first loop of `validate_connections_exist`
(`sr_factory_data_loader.py` lines 784-811): machines with inputs, then
storage inputs, then output sources and key collection. -/
def connections_check_factory (site_id : String) (factory : Factory) (acc : List String) :
    Except LoadError (List String) := do
  let machine_ids := factory.factory_machines.map (fun m => m.machine_id)
  let input_ids := factory.factory_inputs.map (fun i => i.factory_input_id)
  let storage_ids := factory.factory_storage.map (fun s => s.storage_id)
  forE (fun m =>
    match m.inputs with
    | some mis => forE (fun mi => validate_machine_inputs machine_ids input_ids storage_ids
        (.machine_input mi)) mis
    | none => pure ()) factory.factory_machines
  forE (fun st => forE (fun si => validate_machine_inputs machine_ids input_ids storage_ids
    (.machine_input si)) st.inputs) factory.factory_storage
  collect_output_keys site_id factory.factory_id machine_ids input_ids storage_ids
    factory.factory_outputs acc

/-- First loop of `validate_connections_exist` over the factories of one
site. -/
def connections_check_factories (site_id : String) (acc : List String) :
    List Factory → Except LoadError (List String)
  | [] => pure acc
  | f :: rest => do
    let acc2 ← connections_check_factory site_id f acc
    connections_check_factories site_id acc2 rest

/-- First loop of `validate_connections_exist` over all sites. -/
def connections_first_pass (acc : List String) :
    List Site → Except LoadError (List String)
  | [] => pure acc
  | s :: rest => do
    let acc2 ← connections_check_factories s.site_id acc s.factories
    connections_first_pass acc2 rest

/-- Message of the dangling factory-input check in
`validate_connections_exist` (`sr_factory_data_loader.py` lines 825-828). -/
def input_not_exist_msg (factory_id factory_input_id : String) : String :=
  "Factory \x27" ++ factory_id ++ "\x27 factory input \x27" ++ factory_input_id
    ++ "\x27 references a factory output that doesn\x27t exist."

/-- Second loop of `validate_connections_exist`
(`sr_factory_data_loader.py` lines 816-828), inner part: check each factory
input of one factory against the collected output keys. -/
def input_check_list (factory_id : String) (existing : List String) :
    List FactoryInput → Except LoadError Unit
  | [] => pure ()
  | i :: rest =>
    let key := make_factory_output_key i.site_id i.factory_id i.factory_output_id
    if !(existing.contains key) then
      .error (.factoriesJsonError (input_not_exist_msg factory_id i.factory_input_id))
    else input_check_list factory_id existing rest

/-- `validate_connections_exist` — Pass 2 (`sr_factory_data_loader.py` lines
739-828): first loop validates intra-factory references and collects every
composite key of every output; the second loop checks that the
`(site_id, factory_id, factory_output_id)` key of every factory input is
among them. -/
def validate_connections_exist (factory_definitions : FactoryDefinitions) :
    Except LoadError Unit := do
  let existing ← connections_first_pass [] factory_definitions.sites
  forE (fun site =>
    forE (fun factory => input_check_list factory.factory_id existing factory.factory_inputs)
      site.factories) factory_definitions.sites

/-- The per-machine validator of Pass 3
(`sr_factory_data_loader.py` lines 912-918): for a crafter it evaluates
`data_definitions.inputs_per_item[machine.item]`, and the `machine.item` read
raises `AttributeError` (the field is `item_name`), so `inputs_validator` is
never reached from here (and is therefore not reproduced). -/
def pass3_machines_validator (_data_definitions : GameDataDefinitions)
    (machine : FactoryMachine) : Except LoadError Unit := do
  if machine.inputs.isSome then do
    let _item ← machine.attr_item
    pure ()
  else pure ()

/-- The per-output validator of Pass 3 (`sr_factory_data_loader.py` lines
920-924): it evaluates `[output.dispatched_item]`, and the read raises
`AttributeError` (the field is `dispatched_item_name`). -/
def pass3_outputs_validator (output : FactoryOutput) : Except LoadError Unit := do
  let _dispatched ← output.attr_dispatched_item
  pure ()

/-- The per-storage validator of Pass 3 (`sr_factory_data_loader.py` lines
926-930): it evaluates `storage.items`, and the read raises `AttributeError`
(the field is `item_names`), so the per-source `inputs_validator` — including
the storage-set disjointness test of lines 869-885 — is never reached. -/
def pass3_storage_validator (storage : FactoryStorage) : Except LoadError Unit := do
  let _items ← storage.attr_items
  pure ()

/-- `validation_correct_item_for_input` — Pass 3 (`sr_factory_data_loader.py`
lines 832-934): visit machines, then outputs, then storage. -/
def validation_correct_item_for_input (factory_definitions : FactoryDefinitions)
    (data_definitions : GameDataDefinitions) : Except LoadError Unit := do
  visit_all_machines factory_definitions (pass3_machines_validator data_definitions)
  visit_all_factory_outputs factory_definitions pass3_outputs_validator
  visit_all_factory_storage factory_definitions pass3_storage_validator

/-- `load_factories_json` (`sr_factory_data_loader.py` lines 1000-1009):
parse and construct, then run the three validation passes in order. -/
def load_factories_json (game_data_definitions : GameDataDefinitions) (doc : PyJson) :
    Except LoadError FactoryDefinitions := do
  let factory_definitions ← read_factories_json doc
  validate_item_exists factory_definitions game_data_definitions
  validate_connections_exist factory_definitions
  validation_correct_item_for_input factory_definitions game_data_definitions
  pure factory_definitions

/-- The singly-linked chain of path segments owned by a `JsonPath`
(`sr_factory_data_loader.py` lines 170-206): at least one node, each holding
a `path_id`. -/
inductive PathChain where
  | last (path_id : String)
  | cons (path_id : String) (next : PathChain)

/-- `JsonPath.get_path_array` (`sr_factory_data_loader.py` lines 184-196):
walk the chain from the head collecting every `path_id`. -/
def PathChain.get_path_array : PathChain → List String
  | .last i => [i]
  | .cons i n => i :: n.get_path_array

/-- `JsonPath.get_path_str` (`sr_factory_data_loader.py` lines 199-206):
join the segment list with the separator `▹`. -/
def JsonPath_get_path_str (c : PathChain) : String :=
  String.intercalate "▹" c.get_path_array

/-- A `JsonPathNode` handle as observed by its rendering methods
(`sr_factory_data_loader.py` lines 97-156): it holds a weak reference to the
owning `JsonPath`.  `json_path_ref = some c` models a live root whose chain
is `c` (the result of calling the weak reference); `none` models a root that
has been garbage collected. -/
structure JsonPathNodeH where
  json_path_ref : Option PathChain
  path_id : String

/-- `JsonPathNode.get_path_str` (`sr_factory_data_loader.py` lines 136-148):
delegate to the owning `JsonPath` when the weak reference is alive, otherwise
return the empty string without raising. -/
def JsonPathNodeH.get_path_str (n : JsonPathNodeH) : String :=
  match n.json_path_ref with
  | some jp => JsonPath_get_path_str jp
  | none => ""

/-- `JsonPathNode.get_path_array` (`sr_factory_data_loader.py` lines
151-156): delegate when alive, otherwise return the empty list. -/
def JsonPathNodeH.get_path_array (n : JsonPathNodeH) : List String :=
  match n.json_path_ref with
  | some jp => jp.get_path_array
  | none => []

/-- An empty catalogue (the validation passes that would consult a catalogue
fail before reading it). -/
def gd_empty : GameDataDefinitions := GameDataDefinitions.mk [] [] []

/-- A catalogue declaring the raw pair `(iron ore, normal)` referenced by
`doc_c1`, so that every item of that document exists in the catalogue. -/
def gd_c1 : GameDataDefinitions :=
  GameDataDefinitions.mk [Item.mk "iron ingot"] [] [RawItem.mk "iron ore" "normal"]

/-- A document that satisfies every data-model invariant of the spec: one
site with one factory holding a single raw-extractor machine whose
`(item, variant)` pair exists in `gd_c1`. -/
def doc_c1 : PyJson :=
  .obj [("sites", .obj [("s1", .obj [
    ("teleporter", .str ""),
    ("heat_limit", .int 1000),
    ("heat_current", .int 1),
    ("factories", .obj [("f1", .obj [
      ("purpose", .str "smelting"),
      ("machines", .obj [("m1", .obj [
        ("item", .str "iron ore"),
        ("variant", .str "normal")])])])])])])]

/-- The trivial document with an empty `sites` object: the only shape that
exercises a fully successful `load_factories_json`. -/
def doc_trivial : PyJson := .obj [("sites", .obj [])]

/-- A document whose storage declares an input drawn from a factory input
(`from_factory_input_id`), the situation claim C2 is about. -/
def doc_c2 : PyJson :=
  .obj [("sites", .obj [("s1", .obj [
    ("teleporter", .str ""),
    ("heat_limit", .int 1000),
    ("heat_current", .int 1),
    ("factories", .obj [("f1", .obj [
      ("purpose", .str "storing"),
      ("machines", .obj []),
      ("inputs", .obj [("i1", .obj [
        ("site_id", .str "s2"),
        ("factory_id", .str "f9"),
        ("factory_output_id", .str "o9")])]),
      ("storage", .obj [("st1", .obj [
        ("items", .list [.str "iron ore"]),
        ("num_stacks", .int 1),
        ("inputs", .list [.obj [
          ("from_factory_input_id", .list [.str "i1"]),
          ("rate_limit_ipm", .int 1)]])])])])])])])]

/-- A document containing a machine that defines neither `variant` nor
`inputs`. -/
def doc_c5 : PyJson :=
  .obj [("sites", .obj [("s1", .obj [
    ("teleporter", .str ""),
    ("heat_limit", .int 1000),
    ("heat_current", .int 1),
    ("factories", .obj [("f1", .obj [
      ("purpose", .str "smelting"),
      ("machines", .obj [("m1", .obj [
        ("item", .str "iron ore")])])])])])])]

/-- A document that passes construction and Pass 1 (it has no machines and no
storage), contains an Output with a source, and contains an Input whose
`(site_id, factory_id, factory_output_id)` matches no Output anywhere. -/
def doc_c6 : PyJson :=
  .obj [("sites", .obj [("s1", .obj [
    ("teleporter", .str ""),
    ("heat_limit", .int 1000),
    ("heat_current", .int 1),
    ("factories", .obj [
      ("f1", .obj [
        ("purpose", .str "producing"),
        ("machines", .obj []),
        ("outputs", .obj [("o1", .obj [
          ("dispatched_item", .str "iron ingot"),
          ("rate_limit_ipm", .int 1),
          ("sources", .list [.obj [
            ("from_machine_id", .list [.str "m1"]),
            ("rate_limit_ipm", .int 1)]])])])]),
      ("f2", .obj [
        ("purpose", .str "consuming"),
        ("machines", .obj []),
        ("inputs", .obj [("i1", .obj [
          ("site_id", .str "s9"),
          ("factory_id", .str "f9"),
          ("factory_output_id", .str "o9")])])])])])])]

/-- A document matching the success scenario of claim C7: a crafter machine
drawing from a storage whose stored item set is non-disjoint from any
reasonable required set. -/
def doc_c7 : PyJson :=
  .obj [("sites", .obj [("s1", .obj [
    ("teleporter", .str ""),
    ("heat_limit", .int 1000),
    ("heat_current", .int 1),
    ("factories", .obj [("f1", .obj [
      ("purpose", .str "smelting"),
      ("machines", .obj [("m1", .obj [
        ("item", .str "iron ingot"),
        ("inputs", .list [.obj [
          ("from_storage_id", .list [.str "st1"]),
          ("rate_limit_ipm", .int 1)]])])]),
      ("storage", .obj [("st1", .obj [
        ("items", .list [.str "iron ore"]),
        ("num_stacks", .int 1),
        ("inputs", .list [.obj [
          ("from_machine_id", .list [.str "m1"]),
          ("rate_limit_ipm", .int 1)]])])])])])])])]

/-- A document whose factory input names its own site and factory while the
referenced output `o9` exists nowhere in the document. -/
def doc_c8 : PyJson :=
  .obj [("sites", .obj [("s1", .obj [
    ("teleporter", .str ""),
    ("heat_limit", .int 1000),
    ("heat_current", .int 1),
    ("factories", .obj [("f1", .obj [
      ("purpose", .str "looping"),
      ("machines", .obj []),
      ("inputs", .obj [("i1", .obj [
        ("site_id", .str "s1"),
        ("factory_id", .str "f1"),
        ("factory_output_id", .str "o9")])])])])])])]

/-- Two sites whose ids contain `";"`: the outputs `("a;b", "c", "d")` and
`("a", "b;c", "d")` are distinct triples but share the composite key
`"a;b;c;d"`. -/
def doc_c10a : PyJson :=
  .obj [("sites", .obj [
    ("a;b", .obj [
      ("teleporter", .str ""),
      ("heat_limit", .int 1000),
      ("heat_current", .int 1),
      ("factories", .obj [("c", .obj [
        ("purpose", .str "producing"),
        ("machines", .obj []),
        ("outputs", .obj [("d", .obj [
          ("dispatched_item", .str "iron ingot"),
          ("rate_limit_ipm", .int 1),
          ("sources", .list [.obj [
            ("from_machine_id", .list [.str "m1"]),
            ("rate_limit_ipm", .int 1)]])])])])])]),
    ("a", .obj [
      ("teleporter", .str ""),
      ("heat_limit", .int 1000),
      ("heat_current", .int 1),
      ("factories", .obj [("b;c", .obj [
        ("purpose", .str "producing"),
        ("machines", .obj []),
        ("outputs", .obj [("d", .obj [
          ("dispatched_item", .str "copper ingot"),
          ("rate_limit_ipm", .int 1),
          ("sources", .list [.obj [
            ("from_machine_id", .list [.str "m1"]),
            ("rate_limit_ipm", .int 1)]])])])])])])])]

/-- A document with a single output `("a;b", "c", "d")` and, in a different
site, an input referencing the distinct triple `("a", "b;c", "d")`: the
composite key of the input equals that of the output, so the index resolves
the input to an output of a different site and factory. -/
def doc_c10b : PyJson :=
  .obj [("sites", .obj [
    ("a;b", .obj [
      ("teleporter", .str ""),
      ("heat_limit", .int 1000),
      ("heat_current", .int 1),
      ("factories", .obj [("c", .obj [
        ("purpose", .str "producing"),
        ("machines", .obj []),
        ("outputs", .obj [("d", .obj [
          ("dispatched_item", .str "iron ingot"),
          ("rate_limit_ipm", .int 1),
          ("sources", .list [.obj [
            ("from_machine_id", .list [.str "m1"]),
            ("rate_limit_ipm", .int 1)]])])])])])]),
    ("s2", .obj [
      ("teleporter", .str ""),
      ("heat_limit", .int 1000),
      ("heat_current", .int 1),
      ("factories", .obj [("f2", .obj [
        ("purpose", .str "consuming"),
        ("machines", .obj []),
        ("inputs", .obj [("i1", .obj [
          ("site_id", .str "a"),
          ("factory_id", .str "b;c"),
          ("factory_output_id", .str "d")])])])])])])]

/-- A document with a duplicated key (`"a"`) inside one nested object. -/
def doc_c4_dup : PyJson :=
  .obj [("sites", .obj [("s1", .obj [
    ("a", .int 1),
    ("a", .int 2),
    ("b", .int 3)])])]

/-- A document whose key `"a"` repeats only across different nesting levels
(no object repeats a key internally). -/
def doc_c4_levels : PyJson :=
  .obj [("a", .int 1), ("b", .obj [("a", .str "not dup"), ("c", .int 2)])]

/-- The entries of the JSON object stored under key `k` of the JSON object
`v` (empty when the navigation does not apply), using the same
`None`-collapsing lookup as the loader. -/
def get_obj_entries (v : PyJson) (k : String) : List (String × PyJson) :=
  match v with
  | .obj ps =>
    match pyGet ps k with
    | some (.obj qs) => qs
    | _ => []
  | _ => []

/-- The string stored under key `k` of the JSON object `v`, when there is
one. -/
def get_str_entry (v : PyJson) (k : String) : Option String :=
  match v with
  | .obj ps =>
    match pyGet ps k with
    | some (.str s) => some s
    | _ => none
  | _ => none

/-- A machine spec that defines both `variant` and `inputs`, or neither
(with the `None` collapsing of `get`, so an explicit JSON `null` counts as
not defined, exactly as the loader observes it). -/
def bad_machine_spec (v : PyJson) : Bool :=
  match v with
  | .obj ps =>
    ((pyGet ps "variant").isSome && (pyGet ps "inputs").isSome) ||
    ((pyGet ps "variant").isNone && (pyGet ps "inputs").isNone)
  | _ => false

/-- The document contains a machine spec (under
`sites ▹ <site> ▹ factories ▹ <factory> ▹ machines`) that defines both
`variant` and `inputs` or neither. -/
def doc_has_bad_machine (doc : PyJson) : Bool :=
  (get_obj_entries doc "sites").any (fun sv =>
    (get_obj_entries sv.2 "factories").any (fun fv =>
      (get_obj_entries fv.2 "machines").any (fun mv => bad_machine_spec mv.2)))

/-- A factory-input spec whose `site_id` and `factory_id` both equal the
declaring site and factory ids. -/
def self_loop_input_spec (site_id factory_id : String) (v : PyJson) : Bool :=
  (get_str_entry v "site_id" == some site_id)
    && (get_str_entry v "factory_id" == some factory_id)

/-- The document contains a factory input targeting its own site and
factory. -/
def doc_has_self_loop_input (doc : PyJson) : Bool :=
  (get_obj_entries doc "sites").any (fun sv =>
    (get_obj_entries sv.2 "factories").any (fun fv =>
      (get_obj_entries fv.2 "inputs").any (fun iv =>
        self_loop_input_spec sv.1 fv.1 iv.2)))

/-- The document contains at least one storage entry (a key inside some
`storage` object of some factory). -/
def doc_has_storage_entry (doc : PyJson) : Bool :=
  (get_obj_entries doc "sites").any (fun sv =>
    (get_obj_entries sv.2 "factories").any (fun fv =>
      !(get_obj_entries fv.2 "storage").isEmpty))

/-- Inversion of a successful bind in the `Except` monad. -/
theorem except_bind_ok_inv {α β : Type} {m : Except LoadError α}
    {f : α → Except LoadError β} {b : β} (h : (m >>= f) = .ok b) :
    ∃ a, m = .ok a ∧ f a = .ok b := by
  cases m with
  | error e => simp at h
  | ok a => exact ⟨a, rfl, by simpa using h⟩

/-- A successful `dict_get` means the value was a JSON object and the result
is its (null-collapsed) lookup. -/
theorem dict_get_ok_inv {v : PyJson} {k : String} {r : Option PyJson}
    (h : dict_get v k = .ok r) : ∃ ps, v = .obj ps ∧ r = pyGet ps k := by
  cases v <;> simp [dict_get] at h <;> exact ⟨_, rfl, h.symm⟩

/-- A successful `dict_items` means the value was a JSON object and the
result is its pair list. -/
theorem dict_items_ok_inv {v : PyJson} {r : List (String × PyJson)}
    (h : dict_items v = .ok r) : v = .obj r := by
  cases v <;> simp [dict_items] at h <;> simp [h]

/-- `mapE` only returns an empty list on an empty input. -/
theorem mapE_ok_nil {α β : Type} {f : α → Except LoadError β} {xs : List α}
    (h : mapE f xs = .ok []) : xs = [] := by
  cases xs with
  | nil => rfl
  | cons x rest =>
    unfold mapE at h
    obtain ⟨y, _, h2⟩ := except_bind_ok_inv h
    obtain ⟨ys, _, h4⟩ := except_bind_ok_inv h2
    simp at h4

/-- A machine accepted by `new_factory_machine` has exactly one of `variant`
and `inputs` set. -/
theorem new_factory_machine_ok_exactly_one {p : List String} {k : String} {v : PyJson}
    {m : FactoryMachine} (h : new_factory_machine p k v = .ok m) :
    (m.variant.isSome != m.inputs.isSome) = true := by
  unfold new_factory_machine at h
  obtain ⟨item, h1, h⟩ := except_bind_ok_inv h
  obtain ⟨variant, h2, h⟩ := except_bind_ok_inv h
  obtain ⟨inputs, h3, h⟩ := except_bind_ok_inv h
  split at h
  · split at h
    · simp at h
    · split at h
      · simp at h
      · split at h
        · simp at h
        · split at h
          · simp at h
            obtain ⟨rfl, _⟩ := h
            rfl
          · split at h
            · split at h
              · simp at h
              · obtain ⟨built, h5, h⟩ := except_bind_ok_inv h
                simp at h
                obtain ⟨rfl, _⟩ := h
                rfl
            · simp at h
  · simp at h

/-- A machine spec that defines both `variant` and `inputs`, or neither, is
always rejected by `new_factory_machine` (the checks of
`sr_factory_data_loader.py` lines 290-296). -/
theorem new_factory_machine_bad_err {p : List String} {k : String} {v : PyJson}
    {m : FactoryMachine} (hb : bad_machine_spec v = true)
    (h : new_factory_machine p k v = .ok m) : False := by
  unfold new_factory_machine at h
  cases v with
  | str s => simp [bad_machine_spec] at hb
  | int n => simp [bad_machine_spec] at hb
  | bool b => simp [bad_machine_spec] at hb
  | null => simp [bad_machine_spec] at hb
  | list xs => simp [bad_machine_spec] at hb
  | obj ps =>
    simp only [dict_get, except_pure_eq, except_bind_ok] at h
    simp only [bad_machine_spec] at hb
    cases hpi : pyGet ps "item" with
    | none => rw [hpi] at h; simp at h
    | some jitem =>
      rw [hpi] at h
      cases jitem with
      | str s =>
        cases hms : missing_string (some s) with
        | true => simp [hms] at h
        | false =>
          simp only [hms, Bool.false_eq_true, if_false] at h
          rw [Bool.or_eq_true] at hb
          rcases hb with hb | hb
          · rw [hb] at h
            simp at h
          · rw [Bool.and_eq_true, Option.isNone_iff_eq_none,
              Option.isNone_iff_eq_none] at hb
            rw [hb.1, hb.2] at h
            simp at h
      | int n => simp at h
      | bool b => simp at h
      | null => simp at h
      | list ys => simp at h
      | obj qs => simp at h

/-- `new_factory_storage` never returns a storage: its (mandatorily
non-empty) input list triggers the `fmi.from_storage_id` read of line 348,
which raises `AttributeError` because the dataclass field is
`from_storage_ids`; every other path raises a structural error first. -/
theorem new_factory_storage_never_ok {p : List String} {sid : String} {spec : PyJson}
    {st : FactoryStorage} (h : new_factory_storage p sid spec = .ok st) : False := by
  unfold new_factory_storage at h
  cases spec with
  | str s => simp [dict_get] at h
  | int n => simp [dict_get] at h
  | bool b => simp [dict_get] at h
  | null => simp [dict_get] at h
  | list xs => simp [dict_get] at h
  | obj ps =>
    simp only [dict_get, except_pure_eq, except_bind_ok] at h
    split at h <;> try simp at h
    split at h <;> try simp at h
    split at h <;> try simp at h
    split at h <;> try simp at h
    split at h <;> try simp at h
    split at h <;> try simp at h
    split at h <;> try simp at h
    obtain ⟨fmis, hm, h2⟩ := except_bind_ok_inv h
    cases fmis with
    | nil =>
      have hnil := mapE_ok_nil hm
      simp_all
    | cons a rest => simp [FactoryMachineInput.attr_from_storage_id] at h2

/-- A factory input accepted by `new_factory_input` carries exactly the
`site_id` and `factory_id` strings of its spec. -/
theorem new_factory_input_ok_fields {p : List String} {k : String} {v : PyJson}
    {fi : FactoryInput} (h : new_factory_input p k v = .ok fi) :
    get_str_entry v "site_id" = some fi.site_id
      ∧ get_str_entry v "factory_id" = some fi.factory_id := by
  unfold new_factory_input at h
  cases v with
  | str s => simp [dict_get] at h
  | int n => simp [dict_get] at h
  | bool b => simp [dict_get] at h
  | null => simp [dict_get] at h
  | list xs => simp [dict_get] at h
  | obj ps =>
    simp only [dict_get, except_pure_eq, except_bind_ok] at h
    split at h <;> try simp at h
    split at h <;> try simp at h
    split at h <;> try simp at h
    split at h <;> try simp at h
    split at h <;> try simp at h
    split at h <;> try simp at h
    subst h
    simp [get_str_entry, *]

/-- Every machines-dict entry processed by a successful `load_machines` run
was accepted by `new_factory_machine`. -/
theorem load_machines_ok_entries {mp : List String} {f f2 : Factory}
    {pairs : List (String × PyJson)} (h : load_machines mp f pairs = .ok f2) :
    ∀ kv ∈ pairs, ∃ m, new_factory_machine (mp ++ [kv.1]) kv.1 kv.2 = .ok m := by
  induction pairs generalizing f with
  | nil => simp
  | cons a rest ih =>
    obtain ⟨k, v⟩ := a
    intro kv hkv
    unfold load_machines at h
    split at h
    · simp at h
    · obtain ⟨m, hm, h2⟩ := except_bind_ok_inv h
      rw [List.mem_cons] at hkv
      rcases hkv with rfl | hkv
      · exact ⟨m, hm⟩
      · exact ih h2 kv hkv

/-- Machines present after a successful `load_machines` run either were
already present or were built by `new_factory_machine` (and then have exactly
one of `variant` and `inputs` set). -/
theorem load_machines_ok_members {mp : List String} {f f2 : Factory}
    {pairs : List (String × PyJson)} (h : load_machines mp f pairs = .ok f2) :
    ∀ m ∈ f2.factory_machines,
      m ∈ f.factory_machines ∨ (m.variant.isSome != m.inputs.isSome) = true := by
  induction pairs generalizing f with
  | nil =>
    unfold load_machines at h
    simp at h
    subst h
    intro m hm
    exact Or.inl hm
  | cons a rest ih =>
    obtain ⟨k, v⟩ := a
    intro m hm
    unfold load_machines at h
    split at h
    · simp at h
    · obtain ⟨m0, hm0, h2⟩ := except_bind_ok_inv h
      rcases ih h2 m hm with hmem | hxor
      · simp only [Factory.add_machine, List.mem_append, List.mem_singleton] at hmem
        rcases hmem with hmem | rfl
        · exact Or.inl hmem
        · exact Or.inr (new_factory_machine_ok_exactly_one hm0)
      · exact Or.inr hxor

/-- `load_machines` changes only the machine list of the factory. -/
theorem load_machines_preserves {mp : List String} {f f2 : Factory}
    {pairs : List (String × PyJson)} (h : load_machines mp f pairs = .ok f2) :
    f2.site_site_id = f.site_site_id ∧ f2.factory_id = f.factory_id := by
  induction pairs generalizing f with
  | nil =>
    unfold load_machines at h
    simp at h
    subst h
    exact ⟨rfl, rfl⟩
  | cons a rest ih =>
    obtain ⟨k, v⟩ := a
    unfold load_machines at h
    split at h
    · simp at h
    · obtain ⟨m0, hm0, h2⟩ := except_bind_ok_inv h
      simpa [Factory.add_machine] using ih h2

/-- Every inputs-dict entry processed by a successful `load_factory_inputs`
run fails the self-loop test of `new_factory` lines 509-514. -/
theorem load_factory_inputs_ok_entries {ip : List String} {f f2 : Factory}
    {pairs : List (String × PyJson)} (h : load_factory_inputs ip f pairs = .ok f2) :
    ∀ kv ∈ pairs, self_loop_input_spec f.site_site_id f.factory_id kv.2 = false := by
  induction pairs generalizing f with
  | nil => simp
  | cons a rest ih =>
    obtain ⟨k, v⟩ := a
    intro kv hkv
    unfold load_factory_inputs at h
    split at h
    · simp at h
    · obtain ⟨fi, hfi, h2⟩ := except_bind_ok_inv h
      split at h2
      · simp at h2
      · rename_i hguard
        rw [List.mem_cons] at hkv
        rcases hkv with rfl | hkv
        · obtain ⟨hs, hf⟩ := new_factory_input_ok_fields hfi
          simp only [self_loop_input_spec, hs, hf]
          have hne : ¬(fi.site_id = f.site_site_id ∧ fi.factory_id = f.factory_id) := by
            rintro ⟨e1, e2⟩
            exact hguard (by simp [e1, e2])
          rcases Decidable.em (fi.site_id = f.site_site_id) with he1 | he1
          · rcases Decidable.em (fi.factory_id = f.factory_id) with he2 | he2
            · exact absurd ⟨he1, he2⟩ hne
            · simp [beq_iff_eq, he2]
          · simp [beq_iff_eq, he1]
        · have := ih h2 kv hkv
          simpa [Factory.add_input] using this

/-- `load_factory_inputs` changes only the input list of the factory. -/
theorem load_factory_inputs_preserves {ip : List String} {f f2 : Factory}
    {pairs : List (String × PyJson)} (h : load_factory_inputs ip f pairs = .ok f2) :
    f2.factory_machines = f.factory_machines := by
  induction pairs generalizing f with
  | nil =>
    unfold load_factory_inputs at h
    simp at h
    subst h
    rfl
  | cons a rest ih =>
    obtain ⟨k, v⟩ := a
    unfold load_factory_inputs at h
    split at h
    · simp at h
    · obtain ⟨fi, hfi, h2⟩ := except_bind_ok_inv h
      split at h2
      · simp at h2
      · simpa [Factory.add_input] using ih h2

/-- `load_factory_outputs` changes only the output list of the factory. -/
theorem load_factory_outputs_preserves {op : List String} {f f2 : Factory}
    {pairs : List (String × PyJson)} (h : load_factory_outputs op f pairs = .ok f2) :
    f2.factory_machines = f.factory_machines := by
  induction pairs generalizing f with
  | nil =>
    unfold load_factory_outputs at h
    simp at h
    subst h
    rfl
  | cons a rest ih =>
    obtain ⟨k, v⟩ := a
    unfold load_factory_outputs at h
    split at h
    · simp at h
    · obtain ⟨fo, hfo, h2⟩ := except_bind_ok_inv h
      simpa [Factory.add_output] using ih h2

/-- `load_factory_storage` only succeeds on an empty entry list, because
`new_factory_storage` never succeeds. -/
theorem load_factory_storage_ok_nil {sp : List String} {f f2 : Factory}
    {pairs : List (String × PyJson)} (h : load_factory_storage sp f pairs = .ok f2) :
    pairs = [] ∧ f2 = f := by
  cases pairs with
  | nil =>
    unfold load_factory_storage at h
    simp at h
    exact ⟨rfl, h.symm⟩
  | cons a rest =>
    obtain ⟨k, v⟩ := a
    unfold load_factory_storage at h
    split at h
    · simp at h
    · obtain ⟨st, hst, h2⟩ := except_bind_ok_inv h
      exact absurd hst (fun hc => new_factory_storage_never_ok hc)

/-- Facts established by a successful `factory_inputs_stage` run: every
entry of the `inputs` section fails the self-loop test, and the machine list
is unchanged. -/
theorem factory_inputs_stage_ok_facts {pn : List String} {fv : PyJson} {f f2 : Factory}
    (h : factory_inputs_stage pn fv f = .ok f2) :
    (∀ kv ∈ get_obj_entries fv "inputs",
      self_loop_input_spec f.site_site_id f.factory_id kv.2 = false)
      ∧ f2.factory_machines = f.factory_machines := by
  unfold factory_inputs_stage at h
  obtain ⟨iv, hig, hmm⟩ := except_bind_ok_inv h
  clear h
  obtain ⟨ps, rfl, hiveq⟩ := dict_get_ok_inv hig
  rw [hiveq] at hmm
  have h := hmm
  clear hmm
  cases hpi : pyGet ps "inputs" with
  | none =>
    rw [hpi] at h
    simp at h
    subst h
    exact ⟨by simp [get_obj_entries, hpi], rfl⟩
  | some j =>
    rw [hpi] at h
    cases j with
    | str s => simp at h
    | int n => simp at h
    | bool b => simp at h
    | null => simp at h
    | list xs => simp at h
    | obj ipairs =>
      simp only [] at h
      refine ⟨?_, load_factory_inputs_preserves h⟩
      intro kv hkv
      have hkv2 : kv ∈ ipairs := by simpa [get_obj_entries, hpi] using hkv
      exact load_factory_inputs_ok_entries h kv hkv2

/-- `factory_outputs_stage` leaves the machine list unchanged. -/
theorem factory_outputs_stage_preserves {pn : List String} {fv : PyJson} {f f2 : Factory}
    (h : factory_outputs_stage pn fv f = .ok f2) :
    f2.factory_machines = f.factory_machines := by
  unfold factory_outputs_stage at h
  obtain ⟨ov, hog, hmm⟩ := except_bind_ok_inv h
  clear h
  obtain ⟨ps, rfl, hoveq⟩ := dict_get_ok_inv hog
  rw [hoveq] at hmm
  have h := hmm
  clear hmm
  cases hpo : pyGet ps "outputs" with
  | none =>
    rw [hpo] at h
    simp at h
    subst h
    rfl
  | some j =>
    rw [hpo] at h
    cases j with
    | str s => simp at h
    | int n => simp at h
    | bool b => simp at h
    | null => simp at h
    | list xs => simp at h
    | obj opairs =>
      simp only [] at h
      exact load_factory_outputs_preserves h

/-- A successful `factory_storage_stage` run means the `storage` section had
no entries, and the factory is unchanged. -/
theorem factory_storage_stage_ok_facts {pn : List String} {fv : PyJson} {f f2 : Factory}
    (h : factory_storage_stage pn fv f = .ok f2) :
    get_obj_entries fv "storage" = [] ∧ f2 = f := by
  unfold factory_storage_stage at h
  obtain ⟨sv, hsg, hmm⟩ := except_bind_ok_inv h
  clear h
  obtain ⟨ps, rfl, hsveq⟩ := dict_get_ok_inv hsg
  rw [hsveq] at hmm
  have h := hmm
  clear hmm
  cases hps : pyGet ps "storage" with
  | none =>
    rw [hps] at h
    simp at h
    subst h
    exact ⟨by simp [get_obj_entries, hps], rfl⟩
  | some j =>
    rw [hps] at h
    cases j with
    | str s => simp at h
    | int n => simp at h
    | bool b => simp at h
    | null => simp at h
    | list xs => simp at h
    | obj spairs =>
      simp only [] at h
      obtain ⟨hnil, hfeq⟩ := load_factory_storage_ok_nil h
      subst hnil
      subst hfeq
      exact ⟨by simp [get_obj_entries, hps], rfl⟩

/-- Facts established by a successful `new_factory` run: no machine spec was
both-or-neither, no input spec was a self-loop, the storage section had no
entries, and every machine of the result has exactly one of `variant` and
`inputs` set. -/
theorem new_factory_ok_facts {p : List String} {sid fid : String} {fv : PyJson} {f : Factory}
    (h : new_factory p sid fid fv = .ok f) :
    (∀ kv ∈ get_obj_entries fv "machines", bad_machine_spec kv.2 = false) ∧
    (∀ kv ∈ get_obj_entries fv "inputs", self_loop_input_spec sid fid kv.2 = false) ∧
    get_obj_entries fv "storage" = [] ∧
    (∀ m ∈ f.factory_machines, (m.variant.isSome != m.inputs.isSome) = true) := by
  unfold new_factory at h
  obtain ⟨pv, hpg, h⟩ := except_bind_ok_inv h
  obtain ⟨ps, rfl, hpveq⟩ := dict_get_ok_inv hpg
  split at h <;> try simp at h
  split at h <;> try simp at h
  obtain ⟨mv, hmg, h⟩ := except_bind_ok_inv h
  have hmveq : mv = pyGet ps "machines" := by
    obtain ⟨ps2, he, hx⟩ := dict_get_ok_inv hmg
    cases he
    exact hx
  split at h <;> try simp at h
  rename_i mvaux mpairs
  obtain ⟨f1, hlm, h⟩ := except_bind_ok_inv h
  obtain ⟨f2, hin, h⟩ := except_bind_ok_inv h
  obtain ⟨f3, hout, h⟩ := except_bind_ok_inv h
  obtain ⟨f4, hsto, h⟩ := except_bind_ok_inv h
  simp at h
  subst h
  have hmachines : pyGet ps "machines" = some (PyJson.obj mpairs) := hmveq.symm
  have hf1ids := load_machines_preserves hlm
  have hinf := factory_inputs_stage_ok_facts hin
  have houtp := factory_outputs_stage_preserves hout
  have hstf := factory_storage_stage_ok_facts hsto
  refine ⟨?_, ?_, hstf.1, ?_⟩
  · intro kv hkv
    have hkv2 : kv ∈ mpairs := by simpa [get_obj_entries, hmachines] using hkv
    obtain ⟨m, hm⟩ := load_machines_ok_entries hlm kv hkv2
    cases hbad : bad_machine_spec kv.2 with
    | true => exact absurd (new_factory_machine_bad_err hbad hm) (fun hf => hf)
    | false => rfl
  · intro kv hkv
    have hres := hinf.1 kv hkv
    rw [hf1ids.1, hf1ids.2] at hres
    exact hres
  · intro m hm
    rw [hstf.2, houtp, hinf.2] at hm
    rcases load_machines_ok_members hlm m hm with hc | hx
    · simp at hc
    · exact hx

/-- Every factories-dict entry processed by a successful `load_factories` run
was accepted by `new_factory`, and every factory of the result either was
present before or was built by `new_factory`. -/
theorem load_factories_ok {fp : List String} {s s2 : Site}
    {pairs : List (String × PyJson)} (h : load_factories fp s pairs = .ok s2) :
    (∀ kv ∈ pairs, ∃ f, new_factory (fp ++ [kv.1]) s.site_id kv.1 kv.2 = .ok f) ∧
    (∀ f ∈ s2.factories, f ∈ s.factories
      ∨ ∃ kv ∈ pairs, new_factory (fp ++ [kv.1]) s.site_id kv.1 kv.2 = .ok f) := by
  induction pairs generalizing s with
  | nil =>
    unfold load_factories at h
    simp at h
    subst h
    exact ⟨by simp, fun f hf => Or.inl hf⟩
  | cons a rest ih =>
    obtain ⟨k, v⟩ := a
    unfold load_factories at h
    split at h
    · simp at h
    · obtain ⟨f0, hf0, h2⟩ := except_bind_ok_inv h
      have hsid : (s.add_factory f0).site_id = s.site_id := rfl
      obtain ⟨ih1, ih2⟩ := ih h2
      constructor
      · intro kv hkv
        rw [List.mem_cons] at hkv
        rcases hkv with rfl | hkv
        · exact ⟨f0, hf0⟩
        · obtain ⟨f, hf⟩ := ih1 kv hkv
          rw [hsid] at hf
          exact ⟨f, hf⟩
      · intro f hf
        rcases ih2 f hf with hmem | ⟨kv, hkv, hok⟩
        · simp only [Site.add_factory, List.mem_append, List.mem_singleton] at hmem
          rcases hmem with hmem | rfl
          · exact Or.inl hmem
          · exact Or.inr ⟨(k, v), List.mem_cons_self _ _, hf0⟩
        · rw [hsid] at hok
          exact Or.inr ⟨kv, List.mem_cons_of_mem _ hkv, hok⟩

/-- Facts established by a successful `new_site` run, combining
`new_factory_ok_facts` over every factory entry. -/
theorem new_site_ok_facts {p : List String} {sid : String} {sv : PyJson} {st : Site}
    (h : new_site p sid sv = .ok st) :
    (∀ kv ∈ get_obj_entries sv "factories",
      (∀ mkv ∈ get_obj_entries kv.2 "machines", bad_machine_spec mkv.2 = false) ∧
      (∀ ikv ∈ get_obj_entries kv.2 "inputs",
        self_loop_input_spec sid kv.1 ikv.2 = false) ∧
      get_obj_entries kv.2 "storage" = []) ∧
    (∀ f ∈ st.factories, ∀ m ∈ f.factory_machines,
      (m.variant.isSome != m.inputs.isSome) = true) := by
  unfold new_site at h
  obtain ⟨tv, htg, h⟩ := except_bind_ok_inv h
  obtain ⟨hlv, hhg, h⟩ := except_bind_ok_inv h
  obtain ⟨hcv, hcg, h⟩ := except_bind_ok_inv h
  obtain ⟨ps, rfl, htveq⟩ := dict_get_ok_inv htg
  split at h <;> try simp at h
  split at h <;> try simp at h
  split at h <;> try simp at h
  split at h <;> try simp at h
  split at h <;> try simp at h
  obtain ⟨fvv, hfg, h⟩ := except_bind_ok_inv h
  have hfveq : fvv = pyGet ps "factories" := by
    obtain ⟨ps2, he, hx⟩ := dict_get_ok_inv hfg
    cases he
    exact hx
  split at h <;> try simp at h
  rename_i fvaux fpairs
  have hfactories : pyGet ps "factories" = some (PyJson.obj fpairs) := hfveq.symm
  obtain ⟨lf1, lf2⟩ := load_factories_ok h
  constructor
  · intro kv hkv
    have hkv2 : kv ∈ fpairs := by simpa [get_obj_entries, hfactories] using hkv
    obtain ⟨f, hf⟩ := lf1 kv hkv2
    exact (new_factory_ok_facts hf).imp id (fun hrest => hrest.imp id (fun h2 => h2.1))
  · intro f hf m hm
    rcases lf2 f hf with hc | ⟨kv, hkv, hok⟩
    · simp at hc
    · exact (new_factory_ok_facts hok).2.2.2 m hm

/-- Every sites-dict entry processed by a successful `load_sites` run was
accepted by `new_site`, and every site of the result was built by
`new_site`. -/
theorem load_sites_ok {sp : List String} {pairs : List (String × PyJson)}
    {sites : List Site} (h : load_sites sp pairs = .ok sites) :
    (∀ kv ∈ pairs, ∃ st, new_site (sp ++ [kv.1]) kv.1 kv.2 = .ok st) ∧
    (∀ st ∈ sites, ∃ kv ∈ pairs, new_site (sp ++ [kv.1]) kv.1 kv.2 = .ok st) := by
  induction pairs generalizing sites with
  | nil =>
    unfold load_sites at h
    simp at h
    subst h
    simp
  | cons a rest ih =>
    obtain ⟨k, v⟩ := a
    unfold load_sites at h
    split at h
    · simp at h
    · obtain ⟨st0, hst0, h2⟩ := except_bind_ok_inv h
      obtain ⟨srest, hsrest, h3⟩ := except_bind_ok_inv h2
      simp at h3
      subst h3
      obtain ⟨ih1, ih2⟩ := ih hsrest
      constructor
      · intro kv hkv
        rw [List.mem_cons] at hkv
        rcases hkv with rfl | hkv
        · exact ⟨st0, hst0⟩
        · exact ih1 kv hkv
      · intro st hst
        rw [List.mem_cons] at hst
        rcases hst with rfl | hst
        · exact ⟨(k, v), List.mem_cons_self _ _, hst0⟩
        · obtain ⟨kv, hkv, hok⟩ := ih2 st hst
          exact ⟨kv, List.mem_cons_of_mem _ hkv, hok⟩

/-- Facts established by a successful `FactoryDefinitions.load` run: the
document contains no both-or-neither machine spec, no self-looping factory
input, and no storage entry, and every machine of the resulting model has
exactly one of `variant` and `inputs` set. -/
theorem FactoryDefinitions_load_ok_facts {doc : PyJson} {fd : FactoryDefinitions}
    (h : FactoryDefinitions_load doc = .ok fd) :
    doc_has_bad_machine doc = false ∧
    doc_has_self_loop_input doc = false ∧
    doc_has_storage_entry doc = false ∧
    (∀ s ∈ fd.sites, ∀ f ∈ s.factories, ∀ m ∈ f.factory_machines,
      (m.variant.isSome != m.inputs.isSome) = true) := by
  unfold FactoryDefinitions_load at h
  obtain ⟨sval, hsg, hmm⟩ := except_bind_ok_inv h
  clear h
  obtain ⟨dps, rfl, hsveq⟩ := dict_get_ok_inv hsg
  have h := hmm
  clear hmm
  split at h <;> try simp at h
  rename_i sv
  obtain ⟨spairs, hitems, h2⟩ := except_bind_ok_inv h
  obtain ⟨sites, hls, h3⟩ := except_bind_ok_inv h2
  obtain ⟨idx, hidx, h4⟩ := except_bind_ok_inv h3
  injection h4 with h5
  have hsvobj : sv = PyJson.obj spairs := dict_items_ok_inv hitems
  subst hsvobj
  subst h5
  have hsent : get_obj_entries (PyJson.obj dps) "sites" = spairs := by
    simp [get_obj_entries, ← hsveq]
  obtain ⟨ls1, ls2⟩ := load_sites_ok hls
  refine ⟨?_, ?_, ?_, ?_⟩
  · simp only [doc_has_bad_machine, hsent, List.any_eq_false]
    intro sv2 hsv2
    obtain ⟨st, hst⟩ := ls1 sv2 hsv2
    have nsf := (new_site_ok_facts hst).1
    simp only [Bool.not_eq_true, List.any_eq_false]
    intro fv hfv
    have ff := nsf fv hfv
    intro mv hmv
    simp [ff.1 mv hmv]
  · simp only [doc_has_self_loop_input, hsent, List.any_eq_false]
    intro sv2 hsv2
    obtain ⟨st, hst⟩ := ls1 sv2 hsv2
    have nsf := (new_site_ok_facts hst).1
    simp only [Bool.not_eq_true, List.any_eq_false]
    intro fv hfv
    have ff := nsf fv hfv
    intro iv hiv
    simp [ff.2.1 iv hiv]
  · simp only [doc_has_storage_entry, hsent, List.any_eq_false]
    intro sv2 hsv2
    obtain ⟨st, hst⟩ := ls1 sv2 hsv2
    have nsf := (new_site_ok_facts hst).1
    simp only [Bool.not_eq_true, List.any_eq_false]
    intro fv hfv
    have ff := nsf fv hfv
    simp [ff.2.2]
  · intro s hs f hf m hm
    obtain ⟨kv, hkv, hok⟩ := ls2 s hs
    exact (new_site_ok_facts hok).2 f hf m hm

/-- A successful `read_factories_json` run means the duplicate-key guard
passed and `FactoryDefinitions.load` produced the result. -/
theorem read_factories_json_ok_inv {doc : PyJson} {fd : FactoryDefinitions}
    (h : read_factories_json doc = .ok fd) :
    json_load_check doc = .ok () ∧ FactoryDefinitions_load doc = .ok fd := by
  unfold read_factories_json at h
  obtain ⟨u, hu, h2⟩ := except_bind_ok_inv h
  cases u
  exact ⟨hu, h2⟩

/-- A failed `read_factories_json` run makes the whole
`load_factories_json` pipeline fail with the same error, for any
catalogue (the validation passes never run). -/
theorem load_factories_json_read_error {gd : GameDataDefinitions} {doc : PyJson}
    {e : LoadError} (h : read_factories_json doc = .error e) :
    load_factories_json gd doc = .error e := by
  unfold load_factories_json
  rw [h]
  rfl

/-- `fail_on_duplicate_check` succeeds exactly when the object has no
internally repeated key. -/
theorem fail_on_duplicate_check_ok_iff (pairs : List (String × PyJson)) :
    fail_on_duplicate_check pairs = .ok ()
      ↔ (duplicate_keys (pairs.map Prod.fst)).isEmpty = true := by
  cases hds : (duplicate_keys (pairs.map Prod.fst)).isEmpty with
  | true => simp [fail_on_duplicate_check, hds]
  | false => simp [fail_on_duplicate_check, hds]

mutual

/-- The duplicate-key pass succeeds on a value exactly when no JSON object
inside it repeats a key within that single object. -/
theorem json_load_check_ok_iff (j : PyJson) :
    json_load_check j = .ok () ↔ has_dup_key_object j = false := by
  cases j with
  | str s => simp [json_load_check, has_dup_key_object]
  | int n => simp [json_load_check, has_dup_key_object]
  | bool b => simp [json_load_check, has_dup_key_object]
  | null => simp [json_load_check, has_dup_key_object]
  | list xs =>
    unfold json_load_check has_dup_key_object
    exact json_load_check_list_ok_iff xs
  | obj pairs =>
    unfold json_load_check has_dup_key_object
    constructor
    · intro h
      obtain ⟨u, hu, h2⟩ := except_bind_ok_inv h
      cases u
      rw [Bool.or_eq_false_iff]
      refine ⟨?_, (json_load_check_pairs_ok_iff pairs).mp hu⟩
      simp [(fail_on_duplicate_check_ok_iff pairs).mp h2]
    · intro h
      rw [Bool.or_eq_false_iff] at h
      have h1 := (json_load_check_pairs_ok_iff pairs).mpr h.2
      have h2 : fail_on_duplicate_check pairs = .ok () := by
        rw [fail_on_duplicate_check_ok_iff]
        have := h.1
        simpa using this
      calc (do
          json_load_check_pairs pairs
          fail_on_duplicate_check pairs)
          = fail_on_duplicate_check pairs := by rw [h1]; rfl
        _ = .ok () := h2

/-- `json_load_check_ok_iff` over array elements. -/
theorem json_load_check_list_ok_iff (xs : List PyJson) :
    json_load_check_list xs = .ok () ↔ has_dup_key_object_list xs = false := by
  cases xs with
  | nil => simp [json_load_check_list, has_dup_key_object_list]
  | cons x rest =>
    unfold json_load_check_list has_dup_key_object_list
    constructor
    · intro h
      obtain ⟨u, hu, h2⟩ := except_bind_ok_inv h
      cases u
      rw [Bool.or_eq_false_iff]
      exact ⟨(json_load_check_ok_iff x).mp hu, (json_load_check_list_ok_iff rest).mp h2⟩
    · intro h
      rw [Bool.or_eq_false_iff] at h
      have h1 := (json_load_check_ok_iff x).mpr h.1
      have h2 := (json_load_check_list_ok_iff rest).mpr h.2
      calc (do
          json_load_check x
          json_load_check_list rest)
          = json_load_check_list rest := by rw [h1]; rfl
        _ = .ok () := h2

/-- `json_load_check_ok_iff` over object values. -/
theorem json_load_check_pairs_ok_iff (ps : List (String × PyJson)) :
    json_load_check_pairs ps = .ok () ↔ has_dup_key_object_pairs ps = false := by
  cases ps with
  | nil => simp [json_load_check_pairs, has_dup_key_object_pairs]
  | cons a rest =>
    obtain ⟨k, v⟩ := a
    unfold json_load_check_pairs has_dup_key_object_pairs
    constructor
    · intro h
      obtain ⟨u, hu, h2⟩ := except_bind_ok_inv h
      cases u
      rw [Bool.or_eq_false_iff]
      exact ⟨(json_load_check_ok_iff v).mp hu, (json_load_check_pairs_ok_iff rest).mp h2⟩
    · intro h
      rw [Bool.or_eq_false_iff] at h
      have h1 := (json_load_check_ok_iff v).mpr h.1
      have h2 := (json_load_check_pairs_ok_iff rest).mpr h.2
      calc (do
          json_load_check v
          json_load_check_pairs rest)
          = json_load_check_pairs rest := by rw [h1]; rfl
        _ = .ok () := h2

end

/-- Inversion of a failed bind in the `Except` monad. -/
theorem except_bind_error_inv {α β : Type} {m : Except LoadError α}
    {f : α → Except LoadError β} {e : LoadError} (h : (m >>= f) = .error e) :
    m = .error e ∨ ∃ a, m = .ok a ∧ f a = .error e := by
  cases m with
  | error e2 =>
    left
    simpa using h
  | ok a =>
    right
    exact ⟨a, rfl, by simpa using h⟩

mutual

/-- A duplicate-key failure always originates from a JSON object inside the
document, and the error message lists exactly the duplicated key names of
that object. -/
theorem json_load_check_error_sub (j : PyJson) (e : LoadError)
    (h : json_load_check j = .error e) :
    ∃ pairs, SubJson (.obj pairs) j ∧ duplicate_keys (pairs.map Prod.fst) ≠ []
      ∧ e = .factoriesJsonError
          (duplicate_keys_message (duplicate_keys (pairs.map Prod.fst))) := by
  cases j with
  | str s => simp [json_load_check] at h
  | int n => simp [json_load_check] at h
  | bool b => simp [json_load_check] at h
  | null => simp [json_load_check] at h
  | list xs =>
    unfold json_load_check at h
    obtain ⟨qairs, x, hmem, hsub, hne, he⟩ := json_load_check_list_error_sub xs e h
    exact ⟨qairs, SubJson.inList _ x xs hsub hmem, hne, he⟩
  | obj pairs =>
    unfold json_load_check at h
    rcases except_bind_error_inv h with hp | ⟨u, hu, hf⟩
    · obtain ⟨qairs, k, v, hmem, hsub, hne, he⟩ :=
        json_load_check_pairs_error_sub pairs e hp
      exact ⟨qairs, SubJson.inObj _ v k pairs hsub hmem, hne, he⟩
    · cases hds : (duplicate_keys (pairs.map Prod.fst)).isEmpty with
      | true => simp [fail_on_duplicate_check, hds] at hf
      | false =>
        simp only [fail_on_duplicate_check, hds] at hf
        refine ⟨pairs, SubJson.refl _, ?_, ?_⟩
        · intro hc
          rw [hc] at hds
          simp at hds
        · simp only [Bool.false_eq_true, if_false] at hf
          exact (by simpa using hf.symm)

/-- `json_load_check_error_sub` over array elements. -/
theorem json_load_check_list_error_sub (xs : List PyJson) (e : LoadError)
    (h : json_load_check_list xs = .error e) :
    ∃ pairs x, x ∈ xs ∧ SubJson (.obj pairs) x
      ∧ duplicate_keys (pairs.map Prod.fst) ≠ []
      ∧ e = .factoriesJsonError
          (duplicate_keys_message (duplicate_keys (pairs.map Prod.fst))) := by
  cases xs with
  | nil => simp [json_load_check_list] at h
  | cons x rest =>
    unfold json_load_check_list at h
    rcases except_bind_error_inv h with hx | ⟨u, hu, hr⟩
    · obtain ⟨qairs, hsub, hne, he⟩ := json_load_check_error_sub x e hx
      exact ⟨qairs, x, List.mem_cons_self _ _, hsub, hne, he⟩
    · obtain ⟨qairs, y, hymem, hsub, hne, he⟩ := json_load_check_list_error_sub rest e hr
      exact ⟨qairs, y, List.mem_cons_of_mem _ hymem, hsub, hne, he⟩

/-- `json_load_check_error_sub` over object values. -/
theorem json_load_check_pairs_error_sub (ps : List (String × PyJson)) (e : LoadError)
    (h : json_load_check_pairs ps = .error e) :
    ∃ pairs k v, (k, v) ∈ ps ∧ SubJson (.obj pairs) v
      ∧ duplicate_keys (pairs.map Prod.fst) ≠ []
      ∧ e = .factoriesJsonError
          (duplicate_keys_message (duplicate_keys (pairs.map Prod.fst))) := by
  cases ps with
  | nil => simp [json_load_check_pairs] at h
  | cons a rest =>
    obtain ⟨k, v⟩ := a
    unfold json_load_check_pairs at h
    rcases except_bind_error_inv h with hv | ⟨u, hu, hr⟩
    · obtain ⟨qairs, hsub, hne, he⟩ := json_load_check_error_sub v e hv
      exact ⟨qairs, k, v, List.mem_cons_self _ _, hsub, hne, he⟩
    · obtain ⟨qairs, k2, v2, hmem, hsub, hne, he⟩ :=
        json_load_check_pairs_error_sub rest e hr
      exact ⟨qairs, k2, v2, List.mem_cons_of_mem _ hmem, hsub, hne, he⟩

end

/-- The machine of `doc_c1` as constructed by the loader. -/
def c1_machine : FactoryMachine :=
  FactoryMachine.mk "m1" "iron ore" (some (.str "normal")) none
    ["sites", "s1", "factories", "f1", "machines", "m1"]

/-- The factory of `doc_c1` as constructed by the loader. -/
def c1_factory : Factory :=
  Factory.mk "s1" "f1" "smelting" ["sites", "s1", "factories", "f1"]
    [c1_machine] [] [] []

/-- The site of `doc_c1` as constructed by the loader. -/
def c1_site : Site := Site.mk "s1" "" 1000 1 ["sites", "s1"] [c1_factory]

/-- The `FactoryDefinitions` produced by `read_factories_json` on `doc_c1`. -/
def fd_c1 : FactoryDefinitions := FactoryDefinitions.mk [c1_site] []

/-- Whether a load result is a raised `FactoriesJsonError` (as opposed to a
success or to some other raised exception such as `AttributeError`). -/
def is_factories_json_error : Except LoadError FactoryDefinitions → Bool
  | .error (.factoriesJsonError _) => true
  | _ => false

/-- C1: the claim says that for every well-formed document satisfying the
data-model invariants, against a catalogue containing every referenced item,
`load_factories_json` succeeds and the id sets of the model equal the key
sets of the document.  The code violates this: `doc_c1` is such a document
(one site, one factory, one raw-extractor machine whose raw pair is in the
catalogue `gd_c1`) and graph construction does succeed on it — producing
exactly the model `fd_c1`, whose id sets match the document — but Pass 1
(`validate_item_exists`) then reads `machine.item`, an attribute the
`FactoryMachine` dataclass does not declare (its field is `item_name`), so
the whole load raises `AttributeError` instead of succeeding. -/
theorem c1_pass1_attribute_error :
    read_factories_json doc_c1 = .ok fd_c1
      ∧ load_factories_json gd_c1 doc_c1 = .error (.attributeError "item") :=
  ⟨rfl, rfl⟩

/-- C2 counterexample: the claim says a document whose Storage inputs contain
a `from_factory_input_id` entry is rejected as a structural error during
construction.  On `doc_c2` (storage `st1` with exactly such an input),
loading does fail, but with an `AttributeError` from the storage self-input
check reading the nonexistent `fmi.from_storage_id` attribute — not with any
`FactoriesJsonError`; no check ever rejects the `from_factory_input_id`
entry itself (`new_factory_machine_input` accepts it for storage inputs). -/
theorem c2_counterexample :
    read_factories_json doc_c2 = .error (.attributeError "from_storage_id")
      ∧ is_factories_json_error (read_factories_json doc_c2) = false :=
  ⟨rfl, rfl⟩

/-- C2 amended: every document containing a Storage entry — whether or not
its inputs mention `from_factory_input_id` — fails to load, because
`new_factory_storage` always raises (an `AttributeError` on well-shaped
input, a structural error otherwise) before a `FactoryStorage` can be
returned. -/
theorem c2_amended_storage_never_loads :
    ∀ doc, doc_has_storage_entry doc = true → ∀ fd, read_factories_json doc ≠ .ok fd := by
  intro doc hs fd hok
  have hfacts := (FactoryDefinitions_load_ok_facts (read_factories_json_ok_inv hok).2).2.2.1
  rw [hs] at hfacts
  simp at hfacts

/-- C2 witness: `doc_c2` contains a storage entry, so it can never load. -/
theorem c2_witness :
    doc_has_storage_entry doc_c2 = true
      ∧ read_factories_json doc_c2 ≠ .ok (FactoryDefinitions.mk [] []) :=
  ⟨by decide, c2_amended_storage_never_loads doc_c2 (by decide) (FactoryDefinitions.mk [] [])⟩

/-- A factory with no children, for exercising the append methods. -/
def c3_factory0 : Factory :=
  Factory.mk "s1" "f1" "refining" ["sites", "s1", "factories", "f1"] [] [] [] []

/-- A machine with id `m1`. -/
def c3_machine_a : FactoryMachine :=
  FactoryMachine.mk "m1" "iron ore" (some (.str "normal")) none
    ["sites", "s1", "factories", "f1", "machines", "m1"]

/-- A different machine with the same id `m1`. -/
def c3_machine_b : FactoryMachine :=
  FactoryMachine.mk "m1" "copper ore" (some (.str "normal")) none
    ["sites", "s1", "factories", "f1", "machines", "m1"]

/-- A factory input with id `i1`. -/
def c3_input_a : FactoryInput :=
  FactoryInput.mk "i1" "s2" "f2" "o1" ["sites", "s1", "factories", "f1", "inputs", "i1"]

/-- A different factory input with the same id `i1`. -/
def c3_input_b : FactoryInput :=
  FactoryInput.mk "i1" "s3" "f3" "o2" ["sites", "s1", "factories", "f1", "inputs", "i1"]

/-- An output source drawing from machine `m1`. -/
def c3_output_src : FactoryOutputSource :=
  FactoryOutputSource.mk (some ["m1"]) none 1
    ["sites", "s1", "factories", "f1", "outputs", "o1", "sources"]

/-- A factory output with id `o1`. -/
def c3_output_a : FactoryOutput :=
  FactoryOutput.mk "iron ingot" "o1" 1 [c3_output_src]
    ["sites", "s1", "factories", "f1", "outputs", "o1", "sources"]

/-- A different factory output with the same id `o1`. -/
def c3_output_b : FactoryOutput :=
  FactoryOutput.mk "copper ingot" "o1" 1 [c3_output_src]
    ["sites", "s1", "factories", "f1", "outputs", "o1", "sources"]

/-- A machine-input record used by the storage values below. -/
def c3_fmi : FactoryMachineInput :=
  FactoryMachineInput.mk (some ["m1"]) none none 1
    ["sites", "s1", "factories", "f1", "storage", "st1", "inputs"]

/-- A storage with id `st1`. -/
def c3_storage_a : FactoryStorage :=
  FactoryStorage.mk "st1" ["iron ore"] 1 [c3_fmi]
    ["sites", "s1", "factories", "f1", "storage", "st1", "inputs"]

/-- A different storage with the same id `st1`. -/
def c3_storage_b : FactoryStorage :=
  FactoryStorage.mk "st1" ["copper ore"] 2 [c3_fmi]
    ["sites", "s1", "factories", "f1", "storage", "st1", "inputs"]

/-- A factory holding two outputs that share the id `o1`. -/
def c3_factory_dup : Factory :=
  Factory.mk "s1" "f1" "refining" ["sites", "s1", "factories", "f1"]
    [] [] [c3_output_a, c3_output_b] []

/-- A site holding `c3_factory_dup`. -/
def c3_site_dup : Site := Site.mk "s1" "" 1000 1 ["sites", "s1"] [c3_factory_dup]

/-- C3 counterexample: the claim says appending a child whose id duplicates
an already-appended one raises an error at the moment of appending.  The
append methods of `factories_data.py` (`Factory.add_machine` and its three
siblings) are plain list appends with no duplicate check: appending a second
machine with the already-present id `m1` succeeds and both machines coexist
in the collection. -/
theorem c3_counterexample :
    ((c3_factory0.add_machine c3_machine_a).add_machine c3_machine_b).factory_machines.map
      (fun m => m.machine_id) = ["m1", "m1"] := rfl

/-- C3 amended: all four append methods accept duplicate ids without any
check (the duplicate simply coexists with the original); the only id-level
duplicate detection on the model is the defense-in-depth composite-key check
of `FactoryDefinitions.__index_factory_outputs`, which runs after the whole
tree is constructed and raises when two outputs map to the same
`site;factory;output` key. -/
theorem c3_amended_appends_unchecked :
    ((c3_factory0.add_machine c3_machine_a).add_machine c3_machine_b).factory_machines
        = [c3_machine_a, c3_machine_b]
      ∧ ((c3_factory0.add_input c3_input_a).add_input c3_input_b).factory_inputs
        = [c3_input_a, c3_input_b]
      ∧ ((c3_factory0.add_output c3_output_a).add_output c3_output_b).factory_outputs
        = [c3_output_a, c3_output_b]
      ∧ ((c3_factory0.add_storage c3_storage_a).add_storage c3_storage_b).factory_storage
        = [c3_storage_a, c3_storage_b]
      ∧ index_factory_outputs [] [c3_site_dup]
        = .error (.factoriesJsonError (output_index_dup_msg "o1" "f1" "s1")) :=
  ⟨rfl, rfl, rfl, rfl, rfl⟩

/-- C4: a document in which no single JSON object repeats a key passes the
duplicate-key guard (keys repeated only across nesting levels are fine);
a document in which some object repeats a key, at any depth, makes the whole
load fail with the `FailOnDuplicateDict` error, whose message lists exactly
the duplicated key names of the offending object. -/
theorem c4_duplicate_json_keys (doc : PyJson) :
    (has_dup_key_object doc = false → json_load_check doc = .ok ()) ∧
    (has_dup_key_object doc = true →
      ∃ pairs, SubJson (.obj pairs) doc ∧ duplicate_keys (pairs.map Prod.fst) ≠ [] ∧
        read_factories_json doc = .error (.factoriesJsonError
          (duplicate_keys_message (duplicate_keys (pairs.map Prod.fst))))) := by
  constructor
  · intro h
    exact (json_load_check_ok_iff doc).mpr h
  · intro h
    cases hc : json_load_check doc with
    | ok u =>
      cases u
      have hfalse := (json_load_check_ok_iff doc).mp hc
      rw [h] at hfalse
      simp at hfalse
    | error e =>
      obtain ⟨pairs, hsub, hne, he⟩ := json_load_check_error_sub doc e hc
      refine ⟨pairs, hsub, hne, ?_⟩
      unfold read_factories_json
      rw [hc, he]
      rfl

/-- C4 witness: `doc_c4_levels` repeats the key `a` only across nesting
levels and passes the guard; `doc_c4_dup` repeats `a` inside one object and
fails with the message listing it. -/
theorem c4_witness :
    (has_dup_key_object doc_c4_levels = false ∧ json_load_check doc_c4_levels = .ok ())
      ∧ (has_dup_key_object doc_c4_dup = true ∧
        ∃ pairs, SubJson (.obj pairs) doc_c4_dup
          ∧ duplicate_keys (pairs.map Prod.fst) ≠ []
          ∧ read_factories_json doc_c4_dup = .error (.factoriesJsonError
              (duplicate_keys_message (duplicate_keys (pairs.map Prod.fst))))) :=
  ⟨⟨by decide, (c4_duplicate_json_keys doc_c4_levels).1 (by decide)⟩,
   ⟨by decide, (c4_duplicate_json_keys doc_c4_dup).2 (by decide)⟩⟩

/-- C5: a document containing a machine spec that defines both `variant` and
`inputs`, or neither, never survives graph construction — the pipeline fails
with the construction error itself, identical for every catalogue, so Pass 1
never runs; and in every model that construction does produce, each machine
has exactly one of `variant` and `inputs` set. -/
theorem c5_machine_variant_xor_inputs :
    (∀ doc gd, doc_has_bad_machine doc = true →
      ∃ e, read_factories_json doc = .error e ∧ load_factories_json gd doc = .error e) ∧
    (∀ doc fd, read_factories_json doc = .ok fd →
      ∀ s ∈ fd.sites, ∀ f ∈ s.factories, ∀ m ∈ f.factory_machines,
        (m.variant.isSome != m.inputs.isSome) = true) := by
  constructor
  · intro doc gd hbad
    cases hr : read_factories_json doc with
    | ok fd =>
      have hfacts := (FactoryDefinitions_load_ok_facts (read_factories_json_ok_inv hr).2).1
      rw [hbad] at hfacts
      simp at hfacts
    | error e => exact ⟨e, rfl, load_factories_json_read_error hr⟩
  · intro doc fd hr
    exact (FactoryDefinitions_load_ok_facts (read_factories_json_ok_inv hr).2).2.2.2

/-- C5 witness: `doc_c5` has a machine with neither `variant` nor `inputs`
and fails identically under the empty catalogue; the machine of `doc_c1`
survives construction and has exactly one of the two set. -/
theorem c5_witness :
    doc_has_bad_machine doc_c5 = true
      ∧ (∃ e, read_factories_json doc_c5 = .error e
          ∧ load_factories_json gd_empty doc_c5 = .error e)
      ∧ (c1_machine.variant.isSome != c1_machine.inputs.isSome) = true :=
  ⟨by decide,
   c5_machine_variant_xor_inputs.1 doc_c5 gd_empty (by decide),
   c5_machine_variant_xor_inputs.2 doc_c1 fd_c1 rfl c1_site (by simp [fd_c1])
     c1_factory (by simp [c1_site]) c1_machine (by simp [c1_factory])⟩

/-- C6: the claim says a document (passing construction and Pass 1) with an
Input whose triple matches no Output fails in Pass 2 naming that Input.
`doc_c6` passes construction and Pass 1 (it has no machines) and contains
such an Input (`i1` referencing `(s9, f9, o9)`), but Pass 2 fails earlier
with an `AttributeError`: its `validate_machine_inputs` reads
`input.from_machine_id` on the output source of `o1`, an attribute
`FactoryOutputSource` does not declare (its field is `from_machine_ids`).
The failure is in Pass 2 and Pass 3 never runs, but no error naming the
Input is produced. -/
theorem c6_pass2_attribute_error :
    (read_factories_json doc_c6).toOption.isSome = true
      ∧ load_factories_json gd_empty doc_c6 = .error (.attributeError "from_machine_id")
      ∧ is_factories_json_error (load_factories_json gd_empty doc_c6) = false :=
  ⟨rfl, rfl, rfl⟩

/-- C7: the claim describes the Pass 3 storage check (stored item set must
intersect the required set).  That code is unreachable: `doc_c7` matches the
success scenario of the claim (machine `m1` draws from storage `st1` whose item
set would intersect any required set containing `iron ore`), yet loading
fails during construction with an `AttributeError`, because
`new_factory_storage` reads the nonexistent `fmi.from_storage_id` on every
storage; and the Pass 3 storage validator itself reads the nonexistent
`storage.items` (the field is `item_names`), so even a hypothetical storage
object would crash it before the disjointness test. -/
theorem c7_storage_check_unreachable :
    read_factories_json doc_c7 = .error (.attributeError "from_storage_id")
      ∧ pass3_storage_validator c3_storage_a = .error (.attributeError "items") :=
  ⟨rfl, rfl⟩

/-- C8: a document containing a factory Input whose `site_id` and
`factory_id` equal the declaring Site and Factory ids never loads — the
self-loop check of `new_factory` rejects it during graph construction; on
`doc_c8`, whose referenced output `o9` exists nowhere, the error is the
`FactoriesJsonError` naming input `i1` (the check runs before any output
lookup, so the missing output is irrelevant). -/
theorem c8_self_loop_input_rejected :
    (∀ doc, doc_has_self_loop_input doc = true → ∀ fd, read_factories_json doc ≠ .ok fd)
      ∧ read_factories_json doc_c8 = .error (.factoriesJsonError (self_input_msg "i1")) := by
  constructor
  · intro doc hs fd hok
    have hfacts := (FactoryDefinitions_load_ok_facts (read_factories_json_ok_inv hok).2).2.1
    rw [hs] at hfacts
    simp at hfacts
  · rfl

/-- C8 witness: `doc_c8` contains a self-looping input, so it can never
load. -/
theorem c8_witness :
    doc_has_self_loop_input doc_c8 = true
      ∧ read_factories_json doc_c8 ≠ .ok (FactoryDefinitions.mk [] []) :=
  ⟨by decide, c8_self_loop_input_rejected.1 doc_c8 (by decide) (FactoryDefinitions.mk [] [])⟩

/-- C9: rendering a `JsonPathNode` whose owning `JsonPath` has been garbage
collected returns the empty string (and the empty list in segment form)
without raising; when the root is alive, rendering returns the segments from
the root joined with `▹`. -/
theorem c9_path_render_degrades (n : JsonPathNodeH) :
    (n.json_path_ref = none → n.get_path_str = "" ∧ n.get_path_array = []) ∧
    (∀ c, n.json_path_ref = some c →
      n.get_path_str = String.intercalate "▹" c.get_path_array
        ∧ n.get_path_array = c.get_path_array) := by
  constructor
  · intro h
    simp [JsonPathNodeH.get_path_str, JsonPathNodeH.get_path_array, h]
  · intro c h
    simp [JsonPathNodeH.get_path_str, JsonPathNodeH.get_path_array, JsonPath_get_path_str, h]

/-- A path handle whose owning `JsonPath` has been collected. -/
def c9_dead_node : JsonPathNodeH := JsonPathNodeH.mk none "machines"

/-- A live three-segment chain. -/
def c9_live_chain : PathChain := .cons "sites" (.cons "s1" (.last "factories"))

/-- A path handle whose owning `JsonPath` is alive with chain
`c9_live_chain`. -/
def c9_live_node : JsonPathNodeH := JsonPathNodeH.mk (some c9_live_chain) "factories"

/-- C9 witness: the dead handle renders to the empty string and list; the
live handle renders the joined chain. -/
theorem c9_witness :
    (c9_dead_node.get_path_str = "" ∧ c9_dead_node.get_path_array = [])
      ∧ (c9_live_node.get_path_str = String.intercalate "▹" c9_live_chain.get_path_array
        ∧ c9_live_node.get_path_array = c9_live_chain.get_path_array) :=
  ⟨(c9_path_render_degrades c9_dead_node).1 rfl,
   (c9_path_render_degrades c9_live_node).2 c9_live_chain rfl⟩

/-- C10: `make_factory_output_key` is not injective on ids containing `;` —
the distinct triples `("a;b", "c", "d")` and `("a", "b;c", "d")` share the
key `"a;b;c;d"`; `missing_string` (the only id validation) accepts such ids;
on `doc_c10a` two distinct Outputs collide in the output index (reported as
a spurious duplicate); and on `doc_c10b`, which loads, the Input triple
`("a", "b;c", "d")` resolves through the index to the Output of site `a;b`
and factory `c` — an unintended Output, as its captured path shows. -/
theorem c10_output_key_collision :
    make_factory_output_key "a;b" "c" "d" = make_factory_output_key "a" "b;c" "d"
      ∧ ¬(("a;b", "c", "d") = (("a", "b;c", "d") : String × String × String))
      ∧ missing_string (some "a;b") = false
      ∧ missing_string (some "b;c") = false
      ∧ FactoryInput.get_output_key (FactoryInput.mk "i1" "a" "b;c" "d" [])
        = make_factory_output_key "a;b" "c" "d"
      ∧ read_factories_json doc_c10a
        = .error (.factoriesJsonError (output_index_dup_msg "d" "b;c" "a"))
      ∧ ((read_factories_json doc_c10b).map (fun fd =>
          (assoc_lookup fd.all_factory_outputs (make_factory_output_key "a" "b;c" "d")).map
            (fun o => o.json_path)))
        = .ok (some ["sites", "a;b", "factories", "c", "outputs", "d", "sources"]) :=
  ⟨rfl, by decide, rfl, rfl, rfl, rfl, rfl⟩
